import Mathlib

/-
Verification of the hyperparameter-tuning and cross-validated-evaluation engine
of the artigoRioML repository, as a shallow embedding of the Python sources
(src/config/feriados.py, src/utils/preprocessingUtils.py, src/utils/ml_utils.py,
src/utils/tuning_utils.py).  External library collaborators (pandas, numpy,
scikit-learn, optuna, skopt, dateutil) are modelled from their documented
semantics over exact rationals; seeded random collaborators (the shuffles of
KFold/StratifiedKFold) enter as explicit permutation parameters, and the
unseeded optuna sampler enters as an explicit sampler-state parameter.
-/

/-! ## config/feriados.py -/

/-- Floor division, matching the Python `//` operator. -/
def pydiv (a b : Int) : Int := Int.fdiv a b

/-- Modulo with the sign of the divisor, matching the Python `%` operator. -/
def pymod (a b : Int) : Int := Int.emod a b

/-- Month and day of Western (Gregorian) Easter for a year, following the
computus implemented by the external `dateutil.easter` collaborator
(EASTER_WESTERN method), which `gerar_feriados` calls. -/
def easterOcidental (ano : Int) : Int × Int :=
  let y := ano
  let g := pymod y 19
  let c := pydiv y 100
  let h := pymod (c - pydiv c 4 - pydiv (8 * c + 13) 25 + 19 * g + 15) 30
  let i := h - (pydiv h 28) * (1 - (pydiv h 28) * (pydiv 29 (h + 1)) * (pydiv (21 - g) 11))
  let j := pymod (y + pydiv y 4 + i + 2 - c + pydiv c 4) 7
  let p := i - j
  let d := 1 + pymod (p + 27 + pydiv (p + 6) 40) 31
  let m := 3 + pydiv (p + 26) 30
  (m, d)

/-- Day number of a Gregorian calendar date (days since 1970-01-01), the
standard civil-from-days correspondence.  Models a normalized
`pd.Timestamp` of that date: adding or subtracting `Day(k)` is adding or
subtracting `k` on this representation. -/
def timestampDe (ano mes dia : Int) : Int :=
  let y := if mes ≤ 2 then ano - 1 else ano
  let era := pydiv (if 0 ≤ y then y else y - 399) 400
  let yoe := y - era * 400
  let doy := pydiv (153 * (if 2 < mes then mes - 3 else mes + 9) + 2) 5 + dia - 1
  let doe := yoe * 365 + pydiv yoe 4 - pydiv yoe 100 + doy
  era * 146097 + doe - 719468

/-- List of the Brazilian national holidays of a year, in the order built by
`gerar_feriados` in src/config/feriados.py: New Year, carnival Monday and
Tuesday (Easter minus 48 and 47 days), Good Friday (Easter minus 2),
Tiradentes, Labour Day, Corpus Christi (Easter plus 60), Independence,
Nossa Senhora Aparecida, Finados, Proclamation of the Republic, Christmas,
and Saint George (April 23). -/
def gerar_feriados (ano : Int) : List Int :=
  let pascoa := timestampDe ano (easterOcidental ano).1 (easterOcidental ano).2
  [ timestampDe ano 1 1,
    pascoa - 48,
    pascoa - 47,
    pascoa - 2,
    timestampDe ano 4 21,
    timestampDe ano 5 1,
    pascoa + 60,
    timestampDe ano 9 7,
    timestampDe ano 10 12,
    timestampDe ano 11 2,
    timestampDe ano 11 15,
    timestampDe ano 12 25,
    timestampDe ano 4 23 ]

/-- State of the module-level dictionary `FERIADOS_POR_ANO`, passed explicitly:
an association list from year to the cached holiday list. -/
abbrev FeriadosCache := List (Int × List Int)

/-- Embedding of `obter_feriados_ano`: looks the year up in the cache,
computing and inserting `gerar_feriados ano` on a miss, and returns the
cached list together with the updated cache state. -/
def obter_feriados_ano (ano : Int) (cache : FeriadosCache) : List Int × FeriadosCache :=
  match cache.lookup ano with
  | some fs => (fs, cache)
  | none => (gerar_feriados ano, (ano, gerar_feriados ano) :: cache)

/-- Reachability invariant of the holiday cache: it is only ever populated by
`obter_feriados_ano`, so every entry stores exactly the generated list of
its year. -/
def CacheBemFormado (cache : FeriadosCache) : Prop :=
  ∀ a fs, cache.lookup a = some fs → fs = gerar_feriados a

/-! ## utils/preprocessingUtils.py -/

/-- Value stored in a cell of a row or column, the dynamic-typing image of the
Python objects the preprocessing helpers receive.  A parseable date value is
carried as its calendar triple; `pd.to_datetime(v).normalize()` maps it to
`timestampDe` of that triple. -/
inductive Valor where
  | int (n : Int)
  | num (q : ℚ)
  | texto (s : String)
  | dataCal (ano mes dia : Int)
  | nulo
deriving DecidableEq, Repr

/-- Row of a DataFrame as an association list from column name to value,
the image of a `pd.Series` row. -/
abbrev Linha := List (String × Valor)

/-- Column-oriented DataFrame: association list from column name to the list
of column values. -/
abbrev DataFrame := List (String × List Valor)

/-- Errors raised by the embedded operations, mirroring the Python exception
classes that the sources raise or re-raise. -/
inductive Erro where
  | typeError (mensagem : String)
  | keyError (coluna : String)
  | attributeError (atributo : String)
  | valueError (mensagem : String)
  | indexError (mensagem : String)
deriving DecidableEq, Repr

/-- Test whether the character list `sub` is a prefix of `l`. -/
def comecaCom : List Char → List Char → Bool
  | [], _ => true
  | _ :: _, [] => false
  | c :: cs, d :: ds => c == d && comecaCom cs ds

/-- Test whether `sub` occurs as a substring of `s`, the image of the Python
`sub in s` test on strings. -/
def contemSub (s sub : String) : Bool :=
  (List.range (s.toList.length + 1)).any (fun i => comecaCom sub.toList (s.toList.drop i))

/-- Embedding of `eh_feriado`: reads the column `data_inversa` of the row,
parses it as a date and tests membership in the holiday list of its year.
The Python function wraps the body in try/except: a missing column
(KeyError) and any other failure are caught, an error line is printed, and
the value 0 is returned; hence the embedding is total and returns 0 in
those cases.  The holiday-cache state threads through. -/
def eh_feriado (row : Linha) (cache : FeriadosCache) : Int × FeriadosCache :=
  match row.lookup "data_inversa" with
  | none => (0, cache)
  | some v =>
    match v with
    | .dataCal a m d =>
      let data := timestampDe a m d
      let (feriados, cache2) := obter_feriados_ano a cache
      ((if data ∈ feriados then 1 else 0), cache2)
    | _ => (0, cache)

/-- Embedding of `extrair_categorias_tracado`: raises `TypeError` when the
value is not a string, otherwise derives the five road-layout categories by
substring tests on the free-text field, in source order. -/
def extrair_categorias_tracado (tracado : Valor) : Except Erro (List String) :=
  match tracado with
  | .texto t =>
    let condicaoPista := if contemSub t "Em Obras" || contemSub t "Desvio Temporário" then "Em obras" else "Normal"
    let tipoInclinacao := if contemSub t "Aclive" then "Aclive" else if contemSub t "Declive" then "Declive" else "Plano"
    let tipoSuperficie := if contemSub t "Curva" then "Curva" else "Reta"
    let tipoManobra := if contemSub t "Rotatória" then "Rotatória" else if contemSub t "Interseção" then "Interseção" else if contemSub t "Retorno Regulamentado" then "Retorno Regulamentado" else "Nenhum"
    let tipoEstrutura := if contemSub t "Ponte" then "Ponte" else if contemSub t "Túnel" then "Túnel" else if contemSub t "Viaduto" then "Viaduto" else "Nenhum"
    .ok [condicaoPista, tipoInclinacao, tipoSuperficie, tipoManobra, tipoEstrutura]
  | _ => .error (.typeError "Valor esperado do tipo str para tracado_via")

/-- Names of the five category columns added by `categoriza_tracado_via`. -/
def colunasTracado : List String :=
  ["condicaoPista", "tipoInclinacao", "tipoSuperficie", "tipoManobra", "tipoEstrutura"]

/-- Embedding of `categoriza_tracado_via`: re-raises the KeyError of a missing
`tracado_via` column and the TypeError of a non-string cell (both after
printing an error line), otherwise appends the five extracted category
columns to the DataFrame. -/
def categoriza_tracado_via (df : DataFrame) : Except Erro DataFrame :=
  match df.lookup "tracado_via" with
  | none => .error (.keyError "tracado_via")
  | some coluna => do
    let cats ← coluna.mapM extrair_categorias_tracado
    .ok (df ++ (colunasTracado.enum.map
      (fun par => (par.2, cats.map (fun c => Valor.texto (c.getD par.1 ""))))))

/-! ## utils/ml_utils.py: metric collaborators (scikit-learn, numpy) -/

/-- Arithmetic mean of a list of rationals, the image of `np.mean` on a
one-dimensional array (0 on the empty list, where numpy would warn and
produce nan). -/
def np_mean (xs : List ℚ) : ℚ := xs.sum / (xs.length : ℚ)

/-- Population variance of a list of rationals (`np.var`, ddof = 0). -/
def np_var (xs : List ℚ) : ℚ :=
  np_mean (xs.map (fun x => (x - np_mean xs) ^ 2))

/-- Population standard deviation (`np.std`, ddof = 0), represented exactly by
its square: the square root of a rational is irrational in general, and no
claim compares standard deviations numerically, so the value is carried as
the unique nonnegative real whose square is the stored rational. -/
structure DesvioPadrao where
  quadrado : ℚ
deriving DecidableEq, Repr

/-- Embedding of `np.std` on a one-dimensional array. -/
def np_std (xs : List ℚ) : DesvioPadrao := ⟨np_var xs⟩

/-- Insert a value into a sorted list of integers, keeping it sorted. -/
def insereOrdenado (x : Int) : List Int → List Int
  | [] => [x]
  | y :: ys => if x ≤ y then x :: y :: ys else y :: insereOrdenado x ys

/-- Sort a list of integers ascending by insertion. -/
def ordenaInt (l : List Int) : List Int := l.foldr insereOrdenado []

/-- Sorted list of the distinct values of `y`, the image of `np.unique`. -/
def np_unique (y : List Int) : List Int := ordenaInt y.dedup

/-- Embedding of `sklearn.metrics.accuracy_score`: fraction of positions where
prediction and truth agree. -/
def accuracy_score (y_true y_pred : List Int) : ℚ :=
  ((((y_true.zip y_pred).filter (fun p => p.1 == p.2)).length : ℚ)) / ((y_true.length : ℚ))

/-- Precision of class `c` with the scikit-learn default `zero_division = 0`:
true positives over predicted positives, 0 when nothing was predicted as
`c`. -/
def precisaoDaClasse (y_true y_pred : List Int) (c : Int) : ℚ :=
  let tp := ((y_true.zip y_pred).filter (fun p => p.1 == c && p.2 == c)).length
  let pp := (y_pred.filter (fun v => v == c)).length
  if pp = 0 then 0 else (tp : ℚ) / (pp : ℚ)

/-- Recall of class `c` with `zero_division = 0`: true positives over actual
members of the class. -/
def recallDaClasse (y_true y_pred : List Int) (c : Int) : ℚ :=
  let tp := ((y_true.zip y_pred).filter (fun p => p.1 == c && p.2 == c)).length
  let pos := (y_true.filter (fun v => v == c)).length
  if pos = 0 then 0 else (tp : ℚ) / (pos : ℚ)

/-- F1 score of class `c`: harmonic mean of precision and recall, 0 when both
vanish. -/
def f1DaClasse (y_true y_pred : List Int) (c : Int) : ℚ :=
  let p := precisaoDaClasse y_true y_pred c
  let r := recallDaClasse y_true y_pred c
  if p + r = 0 then 0 else 2 * p * r / (p + r)

/-- Per-class metric vector over an explicit label list, the image of
`precision_score`/`recall_score`/`f1_score` with `average = None` and of
`precision_recall_fscore_support` with `labels = np.unique(y)`. -/
def vetorPorClasse (metrica : List Int → List Int → Int → ℚ)
    (labels y_true y_pred : List Int) : List ℚ :=
  labels.map (metrica y_true y_pred)

/-- Embedding of `sklearn.metrics.confusion_matrix` over an explicit label
list: entry (i, j) counts samples of true class `labels[i]` predicted as
`labels[j]` (rows are true classes, columns predicted classes).  Entries
are rationals because the cross-validator averages fold matrices. -/
def confusionMatrixSobre (labels y_true y_pred : List Int) : List (List ℚ) :=
  labels.map (fun a => labels.map (fun b =>
    (((y_true.zip y_pred).filter (fun p => p.1 == a && p.2 == b)).length : ℚ)))

/-- Embedding of `confusion_matrix(y_true, y_pred)` without an explicit label
argument: scikit-learn derives the labels as the sorted distinct values
present in either vector. -/
def confusion_matrix (y_true y_pred : List Int) : List (List ℚ) :=
  confusionMatrixSobre (np_unique (y_true ++ y_pred)) y_true y_pred

/-- Embedding of `sklearn.metrics.roc_auc_score` for a binary problem with
positive class 1, via the Mann-Whitney pair statistic (ties counted half),
which equals the trapezoidal area under the ROC curve.  When one of the
classes is absent scikit-learn raises; there the rational division by zero
yields 0, a case outside every claim and outside the stratified folds the
callers produce. -/
def roc_auc_score (y_true : List Int) (y_score : List ℚ) : ℚ :=
  let pares := y_true.zip y_score
  let pos := (pares.filter (fun p => p.1 == 1)).map (fun p => p.2)
  let neg := (pares.filter (fun p => !(p.1 == 1))).map (fun p => p.2)
  let ganhos := (pos.map (fun sp =>
    ((neg.filter (fun sn => sn < sp)).length : ℚ)
      + ((neg.filter (fun sn => sn == sp)).length : ℚ) / 2)).sum
  ganhos / ((pos.length : ℚ) * (neg.length : ℚ))

/-- Insert a rational into a descending-sorted list, keeping it descending. -/
def insereDesc (x : ℚ) : List ℚ → List ℚ
  | [] => [x]
  | y :: ys => if y ≤ x then x :: y :: ys else y :: insereDesc x ys

/-- Sort a list of rationals descending. -/
def ordenaDesc (l : List ℚ) : List ℚ := l.foldr insereDesc []

/-- Embedding of `sklearn.metrics.roc_curve` restricted to what the callers
consume, the pair (fpr, tpr): one point per distinct score threshold taken
descending, prefixed by the conventional (0, 0) point; at threshold `t` the
rates count the scores at least `t` among negatives and positives.  The
drop-intermediate simplification of collinear interior points performed by
scikit-learn is not modelled; no claim inspects individual curve points. -/
def roc_curve (y_true : List Int) (y_score : List ℚ) : List ℚ × List ℚ :=
  let pares := y_true.zip y_score
  let npos := ((pares.filter (fun p => p.1 == 1)).length : ℚ)
  let nneg := ((pares.filter (fun p => !(p.1 == 1))).length : ℚ)
  let limiares := ordenaDesc (y_score.dedup)
  let fpr := 0 :: limiares.map (fun t =>
    (((pares.filter (fun p => !(p.1 == 1) && t ≤ p.2)).length : ℚ) / nneg))
  let tpr := 0 :: limiares.map (fun t =>
    (((pares.filter (fun p => p.1 == 1 && t ≤ p.2)).length : ℚ) / npos))
  (fpr, tpr)

/-- Linear interpolation at one point against a list of (x, f) knots with
nondecreasing x, the image of `np.interp` at a single query: clamped to the
first value left of the knots and to the last value right of them. -/
def np_interp1 (x : ℚ) : List (ℚ × ℚ) → ℚ
  | [] => 0
  | [(_, f1)] => f1
  | (x1, f1) :: (x2, f2) :: resto =>
    if x ≤ x1 then f1
    else if x ≤ x2 then f1 + (f2 - f1) * (x - x1) / (x2 - x1)
    else np_interp1 x ((x2, f2) :: resto)

/-- Embedding of `np.interp(xs, xp, fp)`: elementwise interpolation of the
query points against the knot lists. -/
def np_interp (xs xp fp : List ℚ) : List ℚ :=
  xs.map (fun x => np_interp1 x (xp.zip fp))

/-- Embedding of `np.linspace(0, 1, n)`: n equally spaced points from 0 to 1
inclusive. -/
def np_linspace01 (n : Nat) : List ℚ :=
  (List.range n).map (fun (i : Nat) => (i : ℚ) / ((n : ℚ) - 1))

/-- Elementwise sum of two equal-length vectors (`+=` on numpy arrays). -/
def vetorSoma (a b : List ℚ) : List ℚ := a.zipWith (fun x y => x + y) b

/-- Elementwise mean across a list of equal-length vectors
(`np.mean(vs, axis=0)`), written pointwise over the first n positions. -/
def mediaAxis0 (n : Nat) (vs : List (List ℚ)) : List ℚ :=
  (List.range n).map (fun i => np_mean (vs.map (fun v => v.getD i 0)))

/-- Elementwise population standard deviation across a list of equal-length
vectors (`np.std(vs, axis=0)`). -/
def stdAxis0 (n : Nat) (vs : List (List ℚ)) : List DesvioPadrao :=
  (List.range n).map (fun i => np_std (vs.map (fun v => v.getD i 0)))

/-- Elementwise mean across a list of equal-shape matrices
(`np.mean(ms, axis=0)`), pointwise over an n-by-n shape. -/
def mediaMatrizes (n : Nat) (ms : List (List (List ℚ))) : List (List ℚ) :=
  (List.range n).map (fun i => (List.range n).map (fun j =>
    np_mean (ms.map (fun m => (m.getD i []).getD j 0))))

/-- Elementwise population standard deviation across a list of equal-shape
matrices (`np.std(ms, axis=0)`). -/
def stdMatrizes (n : Nat) (ms : List (List (List ℚ))) : List (List DesvioPadrao) :=
  (List.range n).map (fun i => (List.range n).map (fun j =>
    np_std (ms.map (fun m => (m.getD i []).getD j 0))))

/-! ## utils/ml_utils.py: avaliar_modelo and validador_cruzado -/

/-- Fitted classifier as `avaliar_modelo` receives it: deterministic label
prediction per sample, and optionally class-probability estimation for the
positive class (column 1 of `predict_proba`).  The `predict_proba` field is
`none` exactly when the Python object has no `predict_proba` attribute. -/
structure ModeloTreinado (ρ : Type) where
  predict : ρ → Int
  predict_proba : Option (ρ → ℚ)

/-- Unfitted classifier as `validador_cruzado` receives it: fitting on a
training partition produces a fitted state `σ`, which prediction and
probability estimation consume. -/
structure Modelo (ρ σ : Type) where
  fit : List ρ → List Int → σ
  predict : σ → ρ → Int
  predict_proba : Option (σ → ρ → ℚ)

/-- Line printed by `avaliar_modelo`, carrying the computed metric values
(the exact float formatting of the Python prints is not modelled). -/
inductive Impressao where
  | acuracia (v : ℚ)
  | aucRoc (v : ℚ)
  | metricasClasse (classe : Nat) (p r f : ℚ)
  | matrizConfusao (m : List (List ℚ))
deriving DecidableEq, Repr

/-- Bundle of metrics named by the specification for the Evaluator.  The
Python `avaliar_modelo` computes and prints these values but has no return
statement, so its embedded return value below is `none` of this type. -/
structure BundleMetricas where
  acuracia : ℚ
  auc_roc : ℚ
  precisao : List ℚ
  revocacao : List ℚ
  f1 : List ℚ
  matriz_confusao : List (List ℚ)
  curva_roc : List ℚ × List ℚ
deriving DecidableEq, Repr

/-- Embedding of `avaliar_modelo`: predicts labels, then unconditionally calls
`predict_proba` (raising `AttributeError` when the model lacks it), computes
accuracy, AUC-ROC, the per-class precision/recall/F1 vectors at positions 0
and 1 (raising `IndexError` as Python would when fewer than two classes
occur), the confusion matrix and the ROC curve, prints the metric lines,
and returns `None`.  The result pairs the printed lines with the Python
return value. -/
def avaliar_modelo {ρ : Type} (modelo : ModeloTreinado ρ) (X_teste : List ρ)
    (y_teste : List Int) : Except Erro (List Impressao × Option BundleMetricas) := do
  let y_pred := X_teste.map modelo.predict
  let y_prob ← match modelo.predict_proba with
    | none => Except.error (Erro.attributeError "predict_proba")
    | some f => Except.ok (X_teste.map f)
  let acuracia := accuracy_score y_teste y_pred
  let auc_roc := roc_auc_score y_teste y_prob
  let labels := np_unique (y_teste ++ y_pred)
  let precisao := vetorPorClasse precisaoDaClasse labels y_teste y_pred
  let revocacao := vetorPorClasse recallDaClasse labels y_teste y_pred
  let f1 := vetorPorClasse f1DaClasse labels y_teste y_pred
  if labels.length < 2 then
    Except.error (Erro.indexError "index 1 is out of bounds")
  else
    let matriz := confusion_matrix y_teste y_pred
    let _curva := roc_curve y_teste y_prob
    Except.ok
      ([ Impressao.acuracia acuracia,
         Impressao.aucRoc auc_roc,
         Impressao.metricasClasse 0 (precisao.getD 0 0) (revocacao.getD 0 0) (f1.getD 0 0),
         Impressao.metricasClasse 1 (precisao.getD 1 0) (revocacao.getD 1 0) (f1.getD 1 0),
         Impressao.matrizConfusao matriz ],
       none)

/-- One cross-validation fold as produced by the external
`StratifiedKFold(n_splits, shuffle=True, random_state=2024).split(X, y)`
collaborator: the pair (training indices, test indices). -/
abbrev Fold := List Nat × List Nat

/-- Positional selection of rows by an index list, the image of
`X.iloc[indices]` / `X[indices]` on valid indices. -/
def selecionaIdx {α : Type} [Inhabited α] (l : List α) (idx : List Nat) : List α :=
  idx.map (fun i => l.getD i default)

/-- Accumulator lists built by the fold loop of `validador_cruzado`, mirroring
the eight Python lists appended per fold. -/
structure ListasVC where
  lista_acuracia : List ℚ
  lista_auc_roc : List ℚ
  lista_precisao : List (List ℚ)
  lista_recall : List (List ℚ)
  lista_f1 : List (List ℚ)
  lista_matrizes : List (List (List ℚ))
  lista_fpr : List (List ℚ)
  lista_tpr : List (List ℚ)
deriving Repr

/-- Empty accumulator state at loop entry. -/
def listasVazias : ListasVC := ⟨[], [], [], [], [], [], [], []⟩

/-- Body of the fold loop of `validador_cruzado`: fits the model on the
training partition, predicts the held-out partition, estimates
probabilities when the model exposes `predict_proba` (appending AUC-ROC and
the ROC curve only then), and appends accuracy, the per-class vectors over
`np.unique(y)` and the confusion matrix. -/
def passoFold {ρ σ : Type} [Inhabited ρ] (modelo : Modelo ρ σ) (X : List ρ)
    (y : List Int) (listas : ListasVC) (fold : Fold) : ListasVC :=
  let X_treino := selecionaIdx X fold.1
  let X_teste := selecionaIdx X fold.2
  let y_treino := selecionaIdx y fold.1
  let y_teste := selecionaIdx y fold.2
  let ajuste := modelo.fit X_treino y_treino
  let y_predito := X_teste.map (modelo.predict ajuste)
  let y_probabilidade := modelo.predict_proba.map (fun f => X_teste.map (f ajuste))
  let labels := np_unique y
  let listas1 : ListasVC :=
    { listas with lista_acuracia := listas.lista_acuracia ++ [accuracy_score y_teste y_predito] }
  let listas2 : ListasVC :=
    match y_probabilidade with
    | none => listas1
    | some prob =>
      { listas1 with
        lista_auc_roc := listas1.lista_auc_roc ++ [roc_auc_score y_teste prob],
        lista_fpr := listas1.lista_fpr ++ [(roc_curve y_teste prob).1],
        lista_tpr := listas1.lista_tpr ++ [(roc_curve y_teste prob).2] }
  { listas2 with
    lista_precisao := listas2.lista_precisao ++ [vetorPorClasse precisaoDaClasse labels y_teste y_predito],
    lista_recall := listas2.lista_recall ++ [vetorPorClasse recallDaClasse labels y_teste y_predito],
    lista_f1 := listas2.lista_f1 ++ [vetorPorClasse f1DaClasse labels y_teste y_predito],
    lista_matrizes := listas2.lista_matrizes ++ [confusion_matrix y_teste y_predito] }

/-- Aggregated report returned by `validador_cruzado`, the image of its result
dictionary.  The AUC-ROC entry is an `Option` pair: the Python dictionary
stores `(None, None)` when no fold produced probability estimates. -/
structure RelatorioVC where
  acuracia : ℚ × DesvioPadrao
  auc_roc : Option (ℚ × DesvioPadrao)
  precisao : List ℚ × List DesvioPadrao
  revocacao : List ℚ × List DesvioPadrao
  f1 : List ℚ × List DesvioPadrao
  matriz_confusao : List (List ℚ) × List (List DesvioPadrao)
  curva_roc : List ℚ × List ℚ × List DesvioPadrao
deriving Repr

/-- Embedding of `validador_cruzado`: runs the fold loop over the stratified
folds (supplied by the external seeded splitter), then aggregates exactly
as the source does — mean/std of the scalar and vector metric lists, the
AUC-ROC entry guarded by emptiness of its list, and the ROC aggregation on
the 100-point `np.linspace(0, 1, 100)` grid, accumulating the interpolated
curves into a running sum divided by the number of curves, with the
pointwise standard deviation computed over the interpolated curves. -/
def validador_cruzado {ρ σ : Type} [Inhabited ρ] (modelo : Modelo ρ σ) (X : List ρ)
    (y : List Int) (folds : List Fold) : RelatorioVC :=
  let listas := folds.foldl (passoFold modelo X y) listasVazias
  let nClasses := (np_unique y).length
  let matriz_media := mediaMatrizes nClasses listas.lista_matrizes
  let matriz_std := stdMatrizes nClasses listas.lista_matrizes
  let media_auc_roc := np_mean listas.lista_auc_roc
  let desvio_auc_roc := np_std listas.lista_auc_roc
  let mean_fpr := np_linspace01 100
  let soma_tpr := (listas.lista_fpr.zip listas.lista_tpr).foldl
    (fun acc par => vetorSoma acc (np_interp mean_fpr par.1 par.2))
    (List.replicate 100 (0 : ℚ))
  let mean_tpr_interp := soma_tpr.map (fun v => v / ((listas.lista_fpr.length : ℚ)))
  let std_tpr := stdAxis0 100
    ((listas.lista_fpr.zip listas.lista_tpr).map (fun par => np_interp mean_fpr par.1 par.2))
  { acuracia := (np_mean listas.lista_acuracia, np_std listas.lista_acuracia),
    auc_roc := if listas.lista_auc_roc.isEmpty then none else some (media_auc_roc, desvio_auc_roc),
    precisao := (mediaAxis0 nClasses listas.lista_precisao, stdAxis0 nClasses listas.lista_precisao),
    revocacao := (mediaAxis0 nClasses listas.lista_recall, stdAxis0 nClasses listas.lista_recall),
    f1 := (mediaAxis0 nClasses listas.lista_f1, stdAxis0 nClasses listas.lista_f1),
    matriz_confusao := (matriz_media, matriz_std),
    curva_roc := (mean_fpr, mean_tpr_interp, std_tpr) }

/-! ## utils/tuning_utils.py -/

/-- Hyperparameter value as sampled or selected by the tuners. -/
inductive VHip where
  | int (n : Int)
  | num (q : ℚ)
  | texto (s : String)
  | bool (b : Bool)
  | nulo
deriving DecidableEq, Repr

/-- Hyperparameter assignment, the image of the plain Python dictionaries that
the tuners return (`best_params`). -/
abbrev Params := List (String × VHip)

/-- Sampling rule of one hyperparameter of the optuna search space, the data
form of the `lambda trial: trial.suggest_*` closures of
src/config/search_spaces.py: a categorical draw, an integer range, or a
real range with an optional logarithmic prior. -/
inductive Regra where
  | categorica (valores : List VHip)
  | inteiro (lo hi : Int)
  | real (lo hi : ℚ) (escalaLog : Bool)
deriving DecidableEq, Repr

/-- Optuna-shaped search space of one model: hyperparameter name to rule. -/
abbrev EspacoOptuna := List (String × Regra)

/-- State of the external optuna sampler.  The source creates each study with
`optuna.create_study(direction="maximize")` and no seed, so the drawn
values are a function of library-internal entropy, not of the call inputs;
that entropy enters the embedding as this explicit argument, giving the
value drawn for a hyperparameter rule at a given fold-study and trial. -/
structure Amostrador where
  amostra : Nat → Nat → String → Regra → VHip

/-- Log and print events emitted by `tunar_modelo` and its helpers, in
emission order: the start marker and the duration-carrying completion
marker of `log`, the best-hyperparameter print, and the error prints of
the except blocks. -/
inductive Evento where
  | logInicio (mensagem : String)
  | logConclusao (mensagem : String) (duracao : ℚ)
  | imprimeMelhores (metodo : String) (params : Params)
  | imprimeErro (mensagem : String)
deriving DecidableEq, Repr

/-- Fold sizes used by KFold: `n % k` folds of size `n / k + 1` followed by
the rest of size `n / k`. -/
def tamanhosDosFolds (n k : Nat) : List Nat :=
  (List.range k).map (fun i => if i < n % k then n / k + 1 else n / k)

/-- Cut a list into consecutive blocks of the given sizes. -/
def blocos {α : Type} : List α → List Nat → List (List α)
  | _, [] => []
  | l, t :: ts => l.take t :: blocos (l.drop t) ts

/-- Embedding of the external `KFold(n_splits=3, shuffle=True,
random_state=42).split(X)` collaborator: the seeded shuffle of the row
indices enters as the explicit permutation `permuta` (a deterministic
function of the seed inside numpy), the test folds are its consecutive
blocks with the standard size distribution, and each training set is the
concatenation of the other blocks. -/
def kfold_split (k : Nat) (permuta : List Nat) : List Fold :=
  let bs := blocos permuta (tamanhosDosFolds permuta.length k)
  bs.enum.map (fun par =>
    (((bs.enum.filter (fun q => q.1 ≠ par.1)).map (fun q => q.2)).flatten, par.2))

/-- Embedding of `objetivo_optuna` for one already-sampled hyperparameter
assignment: instantiates the model from the factory, fits it on the
training partition and returns the accuracy of its predictions on the
validation partition. -/
def objetivo_optuna {ρ σ : Type} (classe_modelo : Params → Modelo ρ σ)
    (parametros : Params) (X_treino : List ρ) (y_treino : List Int)
    (X_validacao : List ρ) (y_validacao : List Int) : ℚ :=
  let modelo := classe_modelo parametros
  let ajuste := modelo.fit X_treino y_treino
  accuracy_score y_validacao (X_validacao.map (modelo.predict ajuste))

/-- First maximum of a nonempty list under a rational key, the semantics of
the Python builtin `max(lista, key=...)`: the element is only replaced when
a strictly greater key appears, so ties keep the earliest element.  The
default is returned on the empty list, where Python would raise. -/
def maxPython {α : Type} (chave : α → ℚ) (padrao : α) : List α → α
  | [] => padrao
  | x :: xs => xs.foldl (fun m e => if chave m < chave e then e else m) x

/-- Outcome of one optuna study: best score and best hyperparameters. -/
structure Estudo where
  best_value : ℚ
  best_params : Params
deriving DecidableEq, Repr

/-- Trials of the study run on fold `iFold`: trial `t` samples every
hyperparameter of the space independently through its rule and scores the
assignment with `objetivo_optuna` on that fold of the training data. -/
def tentativasDoEstudo {ρ σ : Type} [Inhabited ρ] (espacoModelo : EspacoOptuna)
    (classe_modelo : Params → Modelo ρ σ) (X_treino : List ρ) (y_treino : List Int)
    (amostrador : Amostrador) (iFold : Nat) (fold : Fold) (n_iteracoes : Nat) :
    List (ℚ × Params) :=
  (List.range n_iteracoes).map (fun t =>
    let parametros := espacoModelo.map (fun par =>
      (par.1, amostrador.amostra iFold t par.1 par.2))
    (objetivo_optuna classe_modelo parametros
      (selecionaIdx X_treino fold.1) (selecionaIdx y_treino fold.1)
      (selecionaIdx X_treino fold.2) (selecionaIdx y_treino fold.2),
     parametros))

/-- Embedding of `estudo.optimize(...)` followed by reading `best_value` and
`best_params`: the best trial of the bounded trial sequence. -/
def executaEstudo {ρ σ : Type} [Inhabited ρ] (espacoModelo : EspacoOptuna)
    (classe_modelo : Params → Modelo ρ σ) (X_treino : List ρ) (y_treino : List Int)
    (amostrador : Amostrador) (iFold : Nat) (fold : Fold) (n_iteracoes : Nat) : Estudo :=
  let melhor := maxPython (fun par => par.1) (0, [])
    (tentativasDoEstudo espacoModelo classe_modelo X_treino y_treino amostrador iFold fold n_iteracoes)
  ⟨melhor.1, melhor.2⟩

/-- Skopt-shaped search space: ordered list of constrained regions, kept
opaque (the point-based path hands it to the external `BayesSearchCV`). -/
abbrev EspacoSkopt := List Params

/-- Result of the external seeded `BayesSearchCV` collaborator consumed by
`objetivo_skopt`: from the search space and the iteration budget to the
best hyperparameter assignment found. -/
abbrev BuscaBayes := EspacoSkopt → Nat → Params

/-- Message of the start and completion markers of `tunar_modelo`. -/
def mensagemTuning (nomeClasse metodo : String) : String :=
  "Tuning para " ++ nomeClasse ++ " (" ++ metodo ++ ")"

/-- Error message of a missing optuna search-space entry. -/
def msgEspacoNaoEncontrado (nome_modelo : String) : String :=
  "Hiperparametros para " ++ nome_modelo ++ " nao encontrados no espaco de busca."

/-- Error message of a missing skopt search space. -/
def msgEspacoSkoptObrigatorio : String :=
  "Um espaco de busca deve ser fornecido para o metodo skopt."

/-- Error message of an unknown tuning method. -/
def msgMetodoInvalido : String :=
  "Metodo de tuning invalido. Escolha entre optuna ou skopt."

/-- Embedding of `tunar_modelo`.  Arguments follow the source signature, plus
the explicit external collaborators: `permuta` is the seed-42 KFold shuffle
of the training indices, `amostrador` the unseeded optuna sampler state,
`buscaBayes` the seeded BayesSearchCV search, and `duracao` the elapsed
wall-clock time read from `datetime.now()`.  The result pairs the ordered
event trace (log markers and prints) with the outcome: the best
hyperparameters, or the re-raised exception.  The start marker is emitted
first; on the optuna path a study runs per fold of the 3-fold split and
the best-of-folds study wins; the completion marker is emitted on the two
success paths, while the except blocks print the error without a duration
and re-raise. -/
def tunar_modelo {ρ σ : Type} [Inhabited ρ] (nome_modelo nome_classe : String)
    (classe_modelo : Params → Modelo ρ σ) (X_treino : List ρ) (y_treino : List Int)
    (n_iteracoes : Nat) (espacos_busca_optuna : Option (List (String × EspacoOptuna)))
    (espaco_busca_skopt : Option EspacoSkopt) (metodo : String)
    (permuta : List Nat) (amostrador : Amostrador) (buscaBayes : BuscaBayes)
    (duracao : ℚ) : List Evento × Except Erro Params :=
  let inicio := [Evento.logInicio (mensagemTuning nome_classe metodo)]
  if metodo = "optuna" then
    match espacos_busca_optuna with
    | none =>
      (inicio ++ [Evento.imprimeErro (msgEspacoNaoEncontrado nome_modelo)],
       Except.error (Erro.valueError (msgEspacoNaoEncontrado nome_modelo)))
    | some espacos =>
      match espacos.lookup nome_modelo with
      | none =>
        (inicio ++ [Evento.imprimeErro (msgEspacoNaoEncontrado nome_modelo)],
         Except.error (Erro.valueError (msgEspacoNaoEncontrado nome_modelo)))
      | some espacoModelo =>
        let folds := kfold_split 3 permuta
        let estudos := folds.enum.map (fun par =>
          executaEstudo espacoModelo classe_modelo X_treino y_treino amostrador par.1 par.2 n_iteracoes)
        let melhor_estudo := maxPython (fun e => e.best_value) ⟨0, []⟩ estudos
        (inicio ++ [Evento.imprimeMelhores "optuna" melhor_estudo.best_params,
                    Evento.logConclusao (mensagemTuning nome_classe metodo) duracao],
         Except.ok melhor_estudo.best_params)
  else if metodo = "skopt" then
    match espaco_busca_skopt with
    | none =>
      (inicio ++ [Evento.imprimeErro msgEspacoSkoptObrigatorio],
       Except.error (Erro.valueError msgEspacoSkoptObrigatorio))
    | some espaco =>
      let melhores := buscaBayes espaco n_iteracoes
      (inicio ++ [Evento.imprimeMelhores "skopt" melhores,
                  Evento.logConclusao (mensagemTuning nome_classe metodo) duracao],
       Except.ok melhores)
  else
    (inicio ++ [Evento.imprimeErro msgMetodoInvalido],
     Except.error (Erro.valueError msgMetodoInvalido))

/-! ## Per-fold projections of the cross-validation loop, named for use in the
statements about `validador_cruzado`. -/

/-- Fitted state the fold loop produces on one fold. -/
def ajusteDoFold {ρ σ : Type} [Inhabited ρ] (modelo : Modelo ρ σ) (X : List ρ)
    (y : List Int) (fold : Fold) : σ :=
  modelo.fit (selecionaIdx X fold.1) (selecionaIdx y fold.1)

/-- Labels the fold loop predicts on the held-out partition of one fold. -/
def preditoDoFold {ρ σ : Type} [Inhabited ρ] (modelo : Modelo ρ σ) (X : List ρ)
    (y : List Int) (fold : Fold) : List Int :=
  (selecionaIdx X fold.2).map (modelo.predict (ajusteDoFold modelo X y fold))

/-- Accuracy the fold loop appends for one fold. -/
def acuraciaDoFold {ρ σ : Type} [Inhabited ρ] (modelo : Modelo ρ σ) (X : List ρ)
    (y : List Int) (fold : Fold) : ℚ :=
  accuracy_score (selecionaIdx y fold.2) (preditoDoFold modelo X y fold)

/-- Positive-class probability estimates of one fold, for a model exposing
`predict_proba` as `f`. -/
def probDoFold {ρ σ : Type} [Inhabited ρ] (modelo : Modelo ρ σ) (X : List ρ)
    (y : List Int) (f : σ → ρ → ℚ) (fold : Fold) : List ℚ :=
  (selecionaIdx X fold.2).map (f (ajusteDoFold modelo X y fold))

/-- AUC-ROC the fold loop appends for one probability-producing fold. -/
def aucDoFold {ρ σ : Type} [Inhabited ρ] (modelo : Modelo ρ σ) (X : List ρ)
    (y : List Int) (f : σ → ρ → ℚ) (fold : Fold) : ℚ :=
  roc_auc_score (selecionaIdx y fold.2) (probDoFold modelo X y f fold)

/-- ROC curve the fold loop computes for one probability-producing fold. -/
def curvaDoFold {ρ σ : Type} [Inhabited ρ] (modelo : Modelo ρ σ) (X : List ρ)
    (y : List Int) (f : σ → ρ → ℚ) (fold : Fold) : List ℚ × List ℚ :=
  roc_curve (selecionaIdx y fold.2) (probDoFold modelo X y f fold)

/-- True-positive rates of one fold linearly interpolated onto the common
100-point false-positive-rate grid. -/
def interpDoFold {ρ σ : Type} [Inhabited ρ] (modelo : Modelo ρ σ) (X : List ρ)
    (y : List Int) (f : σ → ρ → ℚ) (fold : Fold) : List ℚ :=
  np_interp (np_linspace01 100) (curvaDoFold modelo X y f fold).1 (curvaDoFold modelo X y f fold).2

/-- Per-class precision vector the fold loop appends for one fold. -/
def precisaoDoFold {ρ σ : Type} [Inhabited ρ] (modelo : Modelo ρ σ) (X : List ρ)
    (y : List Int) (fold : Fold) : List ℚ :=
  vetorPorClasse precisaoDaClasse (np_unique y) (selecionaIdx y fold.2) (preditoDoFold modelo X y fold)

/-- Per-class recall vector the fold loop appends for one fold. -/
def revocacaoDoFold {ρ σ : Type} [Inhabited ρ] (modelo : Modelo ρ σ) (X : List ρ)
    (y : List Int) (fold : Fold) : List ℚ :=
  vetorPorClasse recallDaClasse (np_unique y) (selecionaIdx y fold.2) (preditoDoFold modelo X y fold)

/-- Per-class F1 vector the fold loop appends for one fold. -/
def f1DoFold {ρ σ : Type} [Inhabited ρ] (modelo : Modelo ρ σ) (X : List ρ)
    (y : List Int) (fold : Fold) : List ℚ :=
  vetorPorClasse f1DaClasse (np_unique y) (selecionaIdx y fold.2) (preditoDoFold modelo X y fold)

/-- Confusion matrix the fold loop appends for one fold. -/
def matrizDoFold {ρ σ : Type} [Inhabited ρ] (modelo : Modelo ρ σ) (X : List ρ)
    (y : List Int) (fold : Fold) : List (List ℚ) :=
  confusion_matrix (selecionaIdx y fold.2) (preditoDoFold modelo X y fold)

/-! ## Concrete fixtures used by witnesses and counterexamples -/

/-- Predicate selecting the duration-carrying completion markers of a trace. -/
def ehConclusao : Evento → Bool
  | Evento.logConclusao _ _ => true
  | _ => false

/-- Constant classifier fixture: predicts class 0, no probability estimation. -/
def modeloConstante : Modelo Int Unit :=
  { fit := fun _ _ => (), predict := fun _ _ => 0, predict_proba := none }

/-- Classifier-factory fixture that ignores its hyperparameters. -/
def classeConstante : Params → Modelo Int Unit := fun _ => modeloConstante

/-- Identity classifier fixture with probability estimation: predicts the
feature itself and scores it as the probability. -/
def modeloComProba : Modelo Int Unit :=
  { fit := fun _ _ => (), predict := fun _ x => x, predict_proba := some (fun _ x => (x : ℚ)) }

/-- Sampler-state fixture drawing a constant integer value. -/
def amostradorConstante (k : Int) : Amostrador := ⟨fun _ _ _ _ => VHip.int k⟩

/-- External Bayesian-search fixture returning an empty assignment. -/
def buscaBayesVazia : BuscaBayes := fun _ _ => []

/-! ## Theorems -/

theorem gerar_feriados_length (ano : Int) : (gerar_feriados ano).length = 13 := rfl

/-- C10: for every year, obter_feriados_ano is deterministic and idempotent:
on a cache miss it computes and caches the 13 holiday dates of the year, on
a hit it returns the cached list with the cache unchanged, repeated calls
return the same list, and existing entries are never evicted or
overwritten.  The hypothesis is the reachability invariant of the cache,
which the conclusion preserves. -/
theorem obter_feriados_ano_deterministico_idempotente (ano : Int) (cache : FeriadosCache)
    (hwf : CacheBemFormado cache) :
    (obter_feriados_ano ano cache).1 = gerar_feriados ano ∧
    (obter_feriados_ano ano cache).1.length = 13 ∧
    CacheBemFormado (obter_feriados_ano ano cache).2 ∧
    obter_feriados_ano ano (obter_feriados_ano ano cache).2 =
      ((obter_feriados_ano ano cache).1, (obter_feriados_ano ano cache).2) ∧
    (∀ a fs, cache.lookup a = some fs → (obter_feriados_ano ano cache).2.lookup a = some fs) ∧
    (∀ fs, cache.lookup ano = some fs → (obter_feriados_ano ano cache).2 = cache) := by
  cases h : cache.lookup ano with
  | some fs =>
    have hfs : fs = gerar_feriados ano := hwf ano fs h
    refine ⟨?_, ?_, ?_, ?_, ?_, ?_⟩
    · simp [obter_feriados_ano, h, hfs]
    · simp [obter_feriados_ano, h, hfs, gerar_feriados_length]
    · simpa [obter_feriados_ano, h] using hwf
    · simp [obter_feriados_ano, h]
    · intro a fs2 h2
      simpa [obter_feriados_ano, h] using h2
    · intro fs2 _
      simp [obter_feriados_ano, h]
  | none =>
    refine ⟨?_, ?_, ?_, ?_, ?_, ?_⟩
    · simp [obter_feriados_ano, h]
    · simp [obter_feriados_ano, h, gerar_feriados_length]
    · intro a fs2 h2
      simp only [obter_feriados_ano, h] at h2
      rw [List.lookup_cons] at h2
      by_cases ha : a = ano
      · simp [ha] at h2
        rw [← h2, ha]
      · rw [show (a == ano) = false from beq_eq_false_iff_ne.mpr ha] at h2
        exact hwf a fs2 h2
    · simp [obter_feriados_ano, h, List.lookup_cons]
    · intro a fs2 h2
      by_cases ha : a = ano
      · rw [ha, h] at h2
        exact Option.noConfusion h2
      · simp only [obter_feriados_ano, h]
        rw [List.lookup_cons, show (a == ano) = false from beq_eq_false_iff_ne.mpr ha]
        exact h2
    · intro fs2 h2
      exact Option.noConfusion h2

/-- Witness for C10 at year 2024 and the empty cache. -/
theorem obter_feriados_ano_deterministico_idempotente_aplicado :
    (obter_feriados_ano 2024 []).1 = gerar_feriados 2024 ∧
    (obter_feriados_ano 2024 []).1.length = 13 ∧
    CacheBemFormado (obter_feriados_ano 2024 []).2 ∧
    obter_feriados_ano 2024 (obter_feriados_ano 2024 []).2 =
      ((obter_feriados_ano 2024 []).1, (obter_feriados_ano 2024 []).2) ∧
    (∀ a fs, List.lookup a ([] : FeriadosCache) = some fs →
      (obter_feriados_ano 2024 []).2.lookup a = some fs) ∧
    (∀ fs, List.lookup 2024 ([] : FeriadosCache) = some fs → (obter_feriados_ano 2024 []).2 = []) :=
  obter_feriados_ano_deterministico_idempotente 2024 []
    (fun _ _ h => Option.noConfusion h)

/-- C9 counterexample: on a row without the `data_inversa` column,
`eh_feriado` catches the KeyError and returns the default 0 with the cache
untouched, rather than raising the error to the caller. -/
theorem eh_feriado_coluna_ausente_contraexemplo :
    eh_feriado [("outra", Valor.int 3)] [] = (0, []) := rfl

/-- C9 amended: `categoriza_tracado_via` raises a KeyError naming the missing
`tracado_via` column and `extrair_categorias_tracado` raises a TypeError
naming the column on a non-string value, but `eh_feriado` on a row missing
the `data_inversa` column catches the error and returns the default 0. -/
theorem erros_de_forma_de_dados (df : DataFrame) (row : Linha) (cache : FeriadosCache)
    (v : Valor) (hdf : df.lookup "tracado_via" = none)
    (hrow : row.lookup "data_inversa" = none)
    (hv : ∀ s, v ≠ Valor.texto s) :
    categoriza_tracado_via df = Except.error (Erro.keyError "tracado_via") ∧
    extrair_categorias_tracado v =
      Except.error (Erro.typeError "Valor esperado do tipo str para tracado_via") ∧
    eh_feriado row cache = (0, cache) := by
  refine ⟨?_, ?_, ?_⟩
  · simp [categoriza_tracado_via, hdf]
  · cases v with
    | texto s => exact absurd rfl (hv s)
    | int n => rfl
    | num q => rfl
    | dataCal a m d => rfl
    | nulo => rfl
  · simp [eh_feriado, hrow]

/-- Witness for C9 at concrete inputs. -/
theorem erros_de_forma_de_dados_aplicado :
    categoriza_tracado_via [("id", [Valor.int 1])] = Except.error (Erro.keyError "tracado_via") ∧
    extrair_categorias_tracado (Valor.int 7) =
      Except.error (Erro.typeError "Valor esperado do tipo str para tracado_via") ∧
    eh_feriado [("br", Valor.int 101)] [] = (0, []) :=
  erros_de_forma_de_dados [("id", [Valor.int 1])] [("br", Valor.int 101)] [] (Valor.int 7)
    rfl rfl (fun _ h => Valor.noConfusion h)

/-- C2 counterexample: on a model without `predict_proba`, `avaliar_modelo`
does not complete with the probability metrics absent — it raises
AttributeError, because the source calls `predict_proba` unconditionally. -/
theorem avaliar_modelo_sem_predict_proba_contraexemplo :
    avaliar_modelo { predict := fun x : Int => x, predict_proba := none } [0, 1] [0, 1] =
      Except.error (Erro.attributeError "predict_proba") := rfl

/-- C2 amended: for every model without `predict_proba`, `avaliar_modelo`
aborts with AttributeError instead of degrading; the structural omission of
AUC-ROC described by the specification exists only in `validador_cruzado`. -/
theorem avaliar_modelo_sem_predict_proba_lanca_erro {ρ : Type} (modelo : ModeloTreinado ρ)
    (X_teste : List ρ) (y_teste : List Int) (hp : modelo.predict_proba = none) :
    avaliar_modelo modelo X_teste y_teste = Except.error (Erro.attributeError "predict_proba") := by
  simp only [avaliar_modelo, hp]
  rfl

/-- Witness for C2 at a concrete probability-free model. -/
theorem avaliar_modelo_sem_predict_proba_lanca_erro_aplicado :
    avaliar_modelo { predict := fun x : Int => x + 1, predict_proba := none } [2] [3] =
      Except.error (Erro.attributeError "predict_proba") :=
  avaliar_modelo_sem_predict_proba_lanca_erro _ _ _ rfl

/-- C3 counterexample: at a concrete model and test set, the value returned by
`avaliar_modelo` is `None`, not a metric bundle; the metrics are only
computed and printed. -/
theorem avaliar_modelo_retorna_none_contraexemplo :
    (avaliar_modelo { predict := fun x : Int => x, predict_proba := some (fun x => (x : ℚ)) }
        [0, 1] [0, 1]).map (fun r => r.2) = Except.ok none := rfl

/-- C3 amended: for every model exposing `predict_proba` and every test set on
which at least two classes occur, `avaliar_modelo` computes and prints
accuracy, AUC-ROC, the per-class precision/recall/F1 values and the
confusion matrix (and computes the ROC curve for its plot), but returns
`None` rather than a metric bundle. -/
theorem avaliar_modelo_calcula_mas_retorna_none {ρ : Type} (modelo : ModeloTreinado ρ)
    (X_teste : List ρ) (y_teste : List Int) (f : ρ → ℚ)
    (hp : modelo.predict_proba = some f)
    (hl : 2 ≤ (np_unique (y_teste ++ X_teste.map modelo.predict)).length) :
    avaliar_modelo modelo X_teste y_teste =
      Except.ok
        ([Impressao.acuracia (accuracy_score y_teste (X_teste.map modelo.predict)),
          Impressao.aucRoc (roc_auc_score y_teste (X_teste.map f)),
          Impressao.metricasClasse 0
            ((vetorPorClasse precisaoDaClasse (np_unique (y_teste ++ X_teste.map modelo.predict))
                y_teste (X_teste.map modelo.predict)).getD 0 0)
            ((vetorPorClasse recallDaClasse (np_unique (y_teste ++ X_teste.map modelo.predict))
                y_teste (X_teste.map modelo.predict)).getD 0 0)
            ((vetorPorClasse f1DaClasse (np_unique (y_teste ++ X_teste.map modelo.predict))
                y_teste (X_teste.map modelo.predict)).getD 0 0),
          Impressao.metricasClasse 1
            ((vetorPorClasse precisaoDaClasse (np_unique (y_teste ++ X_teste.map modelo.predict))
                y_teste (X_teste.map modelo.predict)).getD 1 0)
            ((vetorPorClasse recallDaClasse (np_unique (y_teste ++ X_teste.map modelo.predict))
                y_teste (X_teste.map modelo.predict)).getD 1 0)
            ((vetorPorClasse f1DaClasse (np_unique (y_teste ++ X_teste.map modelo.predict))
                y_teste (X_teste.map modelo.predict)).getD 1 0),
          Impressao.matrizConfusao (confusion_matrix y_teste (X_teste.map modelo.predict))],
         none) := by
  simp only [avaliar_modelo, hp]
  simp only [if_neg (Nat.not_lt.mpr hl)]
  rfl

/-- Witness for C3 at a concrete model exposing probabilities. -/
theorem avaliar_modelo_calcula_mas_retorna_none_aplicado :
    avaliar_modelo { predict := fun x : Int => x, predict_proba := some (fun x => (x : ℚ)) }
        [0, 1] [1, 0] =
      Except.ok
        ([Impressao.acuracia (accuracy_score [1, 0] (([0, 1] : List Int).map (fun x : Int => x))),
          Impressao.aucRoc (roc_auc_score [1, 0] (([0, 1] : List Int).map (fun x : Int => (x : ℚ)))),
          Impressao.metricasClasse 0
            ((vetorPorClasse precisaoDaClasse (np_unique ([1, 0] ++ ([0, 1] : List Int).map (fun x : Int => x)))
                [1, 0] (([0, 1] : List Int).map (fun x : Int => x))).getD 0 0)
            ((vetorPorClasse recallDaClasse (np_unique ([1, 0] ++ ([0, 1] : List Int).map (fun x : Int => x)))
                [1, 0] (([0, 1] : List Int).map (fun x : Int => x))).getD 0 0)
            ((vetorPorClasse f1DaClasse (np_unique ([1, 0] ++ ([0, 1] : List Int).map (fun x : Int => x)))
                [1, 0] (([0, 1] : List Int).map (fun x : Int => x))).getD 0 0),
          Impressao.metricasClasse 1
            ((vetorPorClasse precisaoDaClasse (np_unique ([1, 0] ++ ([0, 1] : List Int).map (fun x : Int => x)))
                [1, 0] (([0, 1] : List Int).map (fun x : Int => x))).getD 1 0)
            ((vetorPorClasse recallDaClasse (np_unique ([1, 0] ++ ([0, 1] : List Int).map (fun x : Int => x)))
                [1, 0] (([0, 1] : List Int).map (fun x : Int => x))).getD 1 0)
            ((vetorPorClasse f1DaClasse (np_unique ([1, 0] ++ ([0, 1] : List Int).map (fun x : Int => x)))
                [1, 0] (([0, 1] : List Int).map (fun x : Int => x))).getD 1 0),
          Impressao.matrizConfusao (confusion_matrix [1, 0] (([0, 1] : List Int).map (fun x : Int => x)))],
         none) :=
  avaliar_modelo_calcula_mas_retorna_none _ _ _ _ rfl (by decide)

/-- C6: the Tuner aborts with the invalid-method ValueError on any method
outside optuna/skopt, and with the search-space ValueErrors when the optuna
space is absent or lacks the model entry, or when the skopt space is
absent; in each case no hyperparameters are returned. -/
theorem tunar_modelo_erros_de_configuracao {ρ σ : Type} [Inhabited ρ]
    (nome_modelo nome_classe : String) (classe_modelo : Params → Modelo ρ σ)
    (X_treino : List ρ) (y_treino : List Int) (n_iteracoes : Nat)
    (espacos_busca_optuna : Option (List (String × EspacoOptuna)))
    (espaco_busca_skopt : Option EspacoSkopt) (metodo : String)
    (permuta : List Nat) (amostrador : Amostrador) (buscaBayes : BuscaBayes) (duracao : ℚ) :
    (metodo ≠ "optuna" → metodo ≠ "skopt" →
      (tunar_modelo nome_modelo nome_classe classe_modelo X_treino y_treino n_iteracoes
          espacos_busca_optuna espaco_busca_skopt metodo permuta amostrador buscaBayes duracao).2 =
        Except.error (Erro.valueError msgMetodoInvalido)) ∧
    (espacos_busca_optuna = none →
      (tunar_modelo nome_modelo nome_classe classe_modelo X_treino y_treino n_iteracoes
          espacos_busca_optuna espaco_busca_skopt "optuna" permuta amostrador buscaBayes duracao).2 =
        Except.error (Erro.valueError (msgEspacoNaoEncontrado nome_modelo))) ∧
    (∀ espacos, espacos_busca_optuna = some espacos → espacos.lookup nome_modelo = none →
      (tunar_modelo nome_modelo nome_classe classe_modelo X_treino y_treino n_iteracoes
          espacos_busca_optuna espaco_busca_skopt "optuna" permuta amostrador buscaBayes duracao).2 =
        Except.error (Erro.valueError (msgEspacoNaoEncontrado nome_modelo))) ∧
    (espaco_busca_skopt = none →
      (tunar_modelo nome_modelo nome_classe classe_modelo X_treino y_treino n_iteracoes
          espacos_busca_optuna espaco_busca_skopt "skopt" permuta amostrador buscaBayes duracao).2 =
        Except.error (Erro.valueError msgEspacoSkoptObrigatorio)) := by
  refine ⟨?_, ?_, ?_, ?_⟩
  · intro h1 h2
    simp [tunar_modelo, h1, h2]
  · intro h
    simp [tunar_modelo, h]
  · intro espacos h hl
    simp [tunar_modelo, h, hl]
  · intro h
    simp [tunar_modelo, h]

/-- Witness for C6 at concrete configurations: an unknown method, a missing
optuna space, an optuna space without the model entry, and a missing skopt
space. -/
theorem tunar_modelo_erros_de_configuracao_aplicado :
    (tunar_modelo "m" "M" classeConstante [0] [0] 1 none none "grid" [0]
        (amostradorConstante 0) buscaBayesVazia 5).2 =
      Except.error (Erro.valueError msgMetodoInvalido) ∧
    (tunar_modelo "m" "M" classeConstante [0] [0] 1 none none "optuna" [0]
        (amostradorConstante 0) buscaBayesVazia 5).2 =
      Except.error (Erro.valueError (msgEspacoNaoEncontrado "m")) ∧
    (tunar_modelo "m" "M" classeConstante [0] [0] 1 (some [("outro", [])]) none "optuna" [0]
        (amostradorConstante 0) buscaBayesVazia 5).2 =
      Except.error (Erro.valueError (msgEspacoNaoEncontrado "m")) ∧
    (tunar_modelo "m" "M" classeConstante [0] [0] 1 none none "skopt" [0]
        (amostradorConstante 0) buscaBayesVazia 5).2 =
      Except.error (Erro.valueError msgEspacoSkoptObrigatorio) := by
  refine ⟨?_, ?_, ?_, ?_⟩
  · exact (tunar_modelo_erros_de_configuracao "m" "M" classeConstante [0] [0] 1 none none
      "grid" [0] (amostradorConstante 0) buscaBayesVazia 5).1 (by decide) (by decide)
  · exact (tunar_modelo_erros_de_configuracao "m" "M" classeConstante [0] [0] 1 none none
      "optuna" [0] (amostradorConstante 0) buscaBayesVazia 5).2.1 rfl
  · exact (tunar_modelo_erros_de_configuracao "m" "M" classeConstante [0] [0] 1
      (some [("outro", [])]) none "optuna" [0] (amostradorConstante 0) buscaBayesVazia 5).2.2.1
      [("outro", [])] rfl rfl
  · exact (tunar_modelo_erros_de_configuracao "m" "M" classeConstante [0] [0] 1 none none
      "skopt" [0] (amostradorConstante 0) buscaBayesVazia 5).2.2.2 rfl

/-- C7 counterexample: on a failing call (invalid method) the emitted trace is
the start marker followed by the error print only — it contains no
completion marker carrying the elapsed duration, so failed attempts have no
attributable duration. -/
theorem tunar_modelo_sem_conclusao_em_falha_contraexemplo :
    (tunar_modelo "m" "M" classeConstante [0] [0] 1 none none "grid" [0]
        (amostradorConstante 0) buscaBayesVazia 5).1 =
      [Evento.logInicio (mensagemTuning "M" "grid"), Evento.imprimeErro msgMetodoInvalido] ∧
    ((tunar_modelo "m" "M" classeConstante [0] [0] 1 none none "grid" [0]
        (amostradorConstante 0) buscaBayesVazia 5).1.filter ehConclusao) = [] ∧
    (tunar_modelo "m" "M" classeConstante [0] [0] 1 none none "grid" [0]
        (amostradorConstante 0) buscaBayesVazia 5).2 =
      Except.error (Erro.valueError msgMetodoInvalido) :=
  ⟨rfl, rfl, rfl⟩

/-- C7 amended: every call emits the start marker as its first event; the
completion marker with the elapsed duration is emitted exactly on the
success paths, while on every failure path the error is printed and
re-raised without any completion marker, so only successful attempts get an
attributable duration. -/
theorem tunar_modelo_marcadores_de_log {ρ σ : Type} [Inhabited ρ]
    (nome_modelo nome_classe : String) (classe_modelo : Params → Modelo ρ σ)
    (X_treino : List ρ) (y_treino : List Int) (n_iteracoes : Nat)
    (espacos_busca_optuna : Option (List (String × EspacoOptuna)))
    (espaco_busca_skopt : Option EspacoSkopt) (metodo : String)
    (permuta : List Nat) (amostrador : Amostrador) (buscaBayes : BuscaBayes) (duracao : ℚ) :
    ((tunar_modelo nome_modelo nome_classe classe_modelo X_treino y_treino n_iteracoes
        espacos_busca_optuna espaco_busca_skopt metodo permuta amostrador buscaBayes duracao).1.head? =
      some (Evento.logInicio (mensagemTuning nome_classe metodo))) ∧
    ((tunar_modelo nome_modelo nome_classe classe_modelo X_treino y_treino n_iteracoes
          espacos_busca_optuna espaco_busca_skopt metodo permuta amostrador buscaBayes duracao).2.isOk = true →
      Evento.logConclusao (mensagemTuning nome_classe metodo) duracao ∈
        (tunar_modelo nome_modelo nome_classe classe_modelo X_treino y_treino n_iteracoes
          espacos_busca_optuna espaco_busca_skopt metodo permuta amostrador buscaBayes duracao).1) ∧
    ((tunar_modelo nome_modelo nome_classe classe_modelo X_treino y_treino n_iteracoes
          espacos_busca_optuna espaco_busca_skopt metodo permuta amostrador buscaBayes duracao).2.isOk = false →
      ((tunar_modelo nome_modelo nome_classe classe_modelo X_treino y_treino n_iteracoes
          espacos_busca_optuna espaco_busca_skopt metodo permuta amostrador buscaBayes duracao).1.filter
        ehConclusao) = []) := by
  by_cases h1 : metodo = "optuna"
  · subst h1
    cases ho : espacos_busca_optuna with
    | none =>
      refine ⟨?_, ?_, ?_⟩ <;> simp [tunar_modelo, ho, ehConclusao, Except.isOk, Except.toBool]
    | some espacos =>
      cases hl : espacos.lookup nome_modelo with
      | none =>
        refine ⟨?_, ?_, ?_⟩ <;>
          simp [tunar_modelo, ho, hl, ehConclusao, Except.isOk, Except.toBool]
      | some espacoModelo =>
        refine ⟨?_, ?_, ?_⟩ <;>
          simp [tunar_modelo, ho, hl, ehConclusao, Except.isOk, Except.toBool]
  · by_cases h2 : metodo = "skopt"
    · subst h2
      cases hs : espaco_busca_skopt with
      | none =>
        refine ⟨?_, ?_, ?_⟩ <;>
          simp [tunar_modelo, h1, hs, ehConclusao, Except.isOk, Except.toBool]
      | some espaco =>
        refine ⟨?_, ?_, ?_⟩ <;>
          simp [tunar_modelo, h1, hs, ehConclusao, Except.isOk, Except.toBool]
    · refine ⟨?_, ?_, ?_⟩ <;>
        simp [tunar_modelo, h1, h2, ehConclusao, Except.isOk, Except.toBool]

/-- Witness for C7 at a concrete successful skopt call. -/
theorem tunar_modelo_marcadores_de_log_aplicado :
    ((tunar_modelo "m" "M" classeConstante [0] [0] 1 none (some []) "skopt" [0]
        (amostradorConstante 0) buscaBayesVazia 7).1.head? =
      some (Evento.logInicio (mensagemTuning "M" "skopt"))) ∧
    ((tunar_modelo "m" "M" classeConstante [0] [0] 1 none (some []) "skopt" [0]
        (amostradorConstante 0) buscaBayesVazia 7).2.isOk = true →
      Evento.logConclusao (mensagemTuning "M" "skopt") 7 ∈
        (tunar_modelo "m" "M" classeConstante [0] [0] 1 none (some []) "skopt" [0]
          (amostradorConstante 0) buscaBayesVazia 7).1) ∧
    ((tunar_modelo "m" "M" classeConstante [0] [0] 1 none (some []) "skopt" [0]
        (amostradorConstante 0) buscaBayesVazia 7).2.isOk = false →
      ((tunar_modelo "m" "M" classeConstante [0] [0] 1 none (some []) "skopt" [0]
          (amostradorConstante 0) buscaBayesVazia 7).1.filter ehConclusao) = []) :=
  tunar_modelo_marcadores_de_log "m" "M" classeConstante [0] [0] 1 none (some []) "skopt" [0]
    (amostradorConstante 0) buscaBayesVazia 7

theorem blocos_length {α : Type} (ts : List Nat) (l : List α) :
    (blocos l ts).length = ts.length := by
  induction ts generalizing l with
  | nil => rfl
  | cons t ts ih => simp [blocos, ih]

theorem kfold_split_length (k : Nat) (permuta : List Nat) :
    (kfold_split k permuta).length = k := by
  simp [kfold_split, blocos_length, tamanhosDosFolds]

theorem fst_lt_of_mem_enum {α : Type} {l : List α} {p : Nat × α} (h : p ∈ l.enum) :
    p.1 < l.length := by
  rw [List.enum_eq_zip_range] at h
  exact List.mem_range.mp (List.of_mem_zip h).1

theorem tentativas_amostrador_congr {ρ σ : Type} [Inhabited ρ]
    (espacoModelo : EspacoOptuna) (classe_modelo : Params → Modelo ρ σ)
    (X_treino : List ρ) (y_treino : List Int) (a1 a2 : Amostrador) (i : Nat) (fold : Fold)
    (n_iteracoes : Nat)
    (hag : ∀ t h r, t < n_iteracoes → a1.amostra i t h r = a2.amostra i t h r) :
    tentativasDoEstudo espacoModelo classe_modelo X_treino y_treino a1 i fold n_iteracoes =
      tentativasDoEstudo espacoModelo classe_modelo X_treino y_treino a2 i fold n_iteracoes := by
  unfold tentativasDoEstudo
  refine List.map_congr_left ?_
  intro t ht
  have ht2 := List.mem_range.mp ht
  have hp : espacoModelo.map (fun par => (par.1, a1.amostra i t par.1 par.2)) =
      espacoModelo.map (fun par => (par.1, a2.amostra i t par.1 par.2)) :=
    List.map_congr_left (fun par _ => by rw [hag t par.1 par.2 ht2])
  rw [hp]

theorem executaEstudo_amostrador_congr {ρ σ : Type} [Inhabited ρ]
    (espacoModelo : EspacoOptuna) (classe_modelo : Params → Modelo ρ σ)
    (X_treino : List ρ) (y_treino : List Int) (a1 a2 : Amostrador) (i : Nat) (fold : Fold)
    (n_iteracoes : Nat)
    (hag : ∀ t h r, t < n_iteracoes → a1.amostra i t h r = a2.amostra i t h r) :
    executaEstudo espacoModelo classe_modelo X_treino y_treino a1 i fold n_iteracoes =
      executaEstudo espacoModelo classe_modelo X_treino y_treino a2 i fold n_iteracoes := by
  unfold executaEstudo
  rw [tentativas_amostrador_congr espacoModelo classe_modelo X_treino y_treino a1 a2 i fold
    n_iteracoes hag]

/-- C4 counterexample: two sampled-search calls with identical model name,
model class, training data, budget and seed-determined shuffle, differing
only in the unseeded optuna sampler state, return different best
hyperparameters — the source creates its studies without any seed. -/
theorem tunar_modelo_optuna_nao_deterministico_contraexemplo :
    (tunar_modelo "m" "M" classeConstante [0, 1, 2] [0, 0, 0] 1
        (some [("m", [("p", Regra.inteiro 0 10)])]) none "optuna" [0, 1, 2]
        (amostradorConstante 0) buscaBayesVazia 0).2 = Except.ok [("p", VHip.int 0)] ∧
    (tunar_modelo "m" "M" classeConstante [0, 1, 2] [0, 0, 0] 1
        (some [("m", [("p", Regra.inteiro 0 10)])]) none "optuna" [0, 1, 2]
        (amostradorConstante 1) buscaBayesVazia 0).2 = Except.ok [("p", VHip.int 1)] := by
  constructor <;>
    norm_num [tunar_modelo, kfold_split, tamanhosDosFolds, blocos, executaEstudo,
      tentativasDoEstudo, objetivo_optuna, selecionaIdx, accuracy_score, maxPython,
      amostradorConstante, classeConstante, modeloConstante, List.enum, List.enumFrom,
      List.filter, List.lookup]

/-- C4 amended: on the sampled-search path the data partitioning is a
deterministic function of the seeded shuffle, but the per-trial sampling is
performed by the unseeded optuna sampler; two calls with identical inputs
agree exactly when the external sampler state draws identically over the 3
fold-studies and the trial budget. -/
theorem tunar_modelo_optuna_determinismo_modulo_amostrador {ρ σ : Type} [Inhabited ρ]
    (nome_modelo nome_classe : String) (classe_modelo : Params → Modelo ρ σ)
    (X_treino : List ρ) (y_treino : List Int) (n_iteracoes : Nat)
    (espacos_busca_optuna : Option (List (String × EspacoOptuna)))
    (espaco_busca_skopt : Option EspacoSkopt) (permuta : List Nat)
    (a1 a2 : Amostrador) (buscaBayes : BuscaBayes) (duracao : ℚ)
    (hag : ∀ i t h r, i < 3 → t < n_iteracoes → a1.amostra i t h r = a2.amostra i t h r) :
    tunar_modelo nome_modelo nome_classe classe_modelo X_treino y_treino n_iteracoes
      espacos_busca_optuna espaco_busca_skopt "optuna" permuta a1 buscaBayes duracao =
    tunar_modelo nome_modelo nome_classe classe_modelo X_treino y_treino n_iteracoes
      espacos_busca_optuna espaco_busca_skopt "optuna" permuta a2 buscaBayes duracao := by
  cases ho : espacos_busca_optuna with
  | none => simp [tunar_modelo, ho]
  | some espacos =>
    cases hl : espacos.lookup nome_modelo with
    | none => simp [tunar_modelo, ho, hl]
    | some espacoModelo =>
      have hest : (kfold_split 3 permuta).enum.map (fun par =>
          executaEstudo espacoModelo classe_modelo X_treino y_treino a1 par.1 par.2 n_iteracoes) =
        (kfold_split 3 permuta).enum.map (fun par =>
          executaEstudo espacoModelo classe_modelo X_treino y_treino a2 par.1 par.2 n_iteracoes) := by
        refine List.map_congr_left ?_
        intro par hpar
        have hi : par.1 < 3 := by
          have hlen := fst_lt_of_mem_enum hpar
          rwa [kfold_split_length] at hlen
        exact executaEstudo_amostrador_congr espacoModelo classe_modelo X_treino y_treino a1 a2
          par.1 par.2 n_iteracoes (fun t h r ht => hag par.1 t h r hi ht)
      simp only [tunar_modelo, ho, hl]
      rw [hest]

/-- Witness for C4 amended: two syntactically different sampler states that
agree on the consumed draws yield the same result. -/
theorem tunar_modelo_optuna_determinismo_modulo_amostrador_aplicado :
    tunar_modelo "m" "M" classeConstante [0, 1, 2] [0, 0, 0] 1
      (some [("m", [("p", Regra.inteiro 0 10)])]) none "optuna" [0, 1, 2]
      (amostradorConstante 0) buscaBayesVazia 0 =
    tunar_modelo "m" "M" classeConstante [0, 1, 2] [0, 0, 0] 1
      (some [("m", [("p", Regra.inteiro 0 10)])]) none "optuna" [0, 1, 2]
      ⟨fun _ t _ _ => if t < 1 then VHip.int 0 else VHip.int 9⟩ buscaBayesVazia 0 :=
  tunar_modelo_optuna_determinismo_modulo_amostrador "m" "M" classeConstante [0, 1, 2] [0, 0, 0] 1
    (some [("m", [("p", Regra.inteiro 0 10)])]) none [0, 1, 2]
    (amostradorConstante 0) ⟨fun _ t _ _ => if t < 1 then VHip.int 0 else VHip.int 9⟩
    buscaBayesVazia 0
    (fun _ t _ _ _ ht => by simp [amostradorConstante, ht])

theorem soma_tamanhos_aux (n k m : Nat) :
    (((List.range m).map (fun i => if i < n % k then n / k + 1 else n / k)).sum) =
      m * (n / k) + min m (n % k) := by
  induction m with
  | zero => simp
  | succ m ih =>
    rw [List.range_succ, List.map_append, List.sum_append]
    simp only [List.map_cons, List.map_nil, List.sum_cons, List.sum_nil, ih]
    rw [Nat.succ_mul]
    by_cases h : m < n % k
    · rw [if_pos h]
      omega
    · rw [if_neg h]
      omega

theorem soma_tamanhos (n k : Nat) (hk : 0 < k) : (tamanhosDosFolds n k).sum = n := by
  unfold tamanhosDosFolds
  rw [soma_tamanhos_aux]
  have h1 := Nat.mod_lt n hk
  have h2 := Nat.div_add_mod n k
  omega

theorem blocos_flatten {α : Type} (ts : List Nat) (l : List α) :
    (blocos l ts).flatten = l.take ts.sum := by
  induction ts generalizing l with
  | nil => simp [blocos]
  | cons t ts ih =>
    simp only [blocos, List.flatten_cons, ih, List.sum_cons]
    rw [List.take_add]

/-- The three test blocks of the seeded split partition the shuffled training
indices: concatenated in order they give back the whole permutation. -/
theorem kfold_split_testes (permuta : List Nat) :
    ((kfold_split 3 permuta).map (fun fd => fd.2)).flatten = permuta := by
  unfold kfold_split
  rw [List.map_map]
  have h1 : ((fun fd : List Nat × List Nat => fd.2) ∘ (fun par : Nat × List Nat =>
      ((((blocos permuta (tamanhosDosFolds permuta.length 3)).enum.filter
        (fun q => q.1 ≠ par.1)).map (fun q => q.2)).flatten, par.2))) =
      Prod.snd := rfl
  rw [h1, List.enum_map_snd, blocos_flatten, soma_tamanhos _ 3 (by omega), List.take_length]

theorem chave_foldl_max_ge {α : Type} (chave : α → ℚ) (x : α) (xs : List α) :
    chave x ≤ chave (xs.foldl (fun m e => if chave m < chave e then e else m) x) := by
  induction xs generalizing x with
  | nil => exact le_refl _
  | cons e es ih =>
    simp only [List.foldl_cons]
    by_cases h : chave x < chave e
    · rw [if_pos h]
      exact le_trans (le_of_lt h) (ih e)
    · rw [if_neg h]
      exact ih x

theorem foldl_primeiro_maximo {α : Type} (chave : α → ℚ) (x : α) (xs : List α) :
    ∃ l1 l2, x :: xs = l1 ++ (xs.foldl (fun m e => if chave m < chave e then e else m) x) :: l2 ∧
      (∀ e ∈ l1, chave e < chave (xs.foldl (fun m e => if chave m < chave e then e else m) x)) ∧
      (∀ e ∈ l2, chave e ≤ chave (xs.foldl (fun m e => if chave m < chave e then e else m) x)) := by
  induction xs generalizing x with
  | nil => exact ⟨[], [], rfl, by simp, by simp⟩
  | cons e es ih =>
    simp only [List.foldl_cons]
    by_cases h : chave x < chave e
    · rw [if_pos h]
      obtain ⟨l1, l2, heq, h1, h2⟩ := ih e
      refine ⟨x :: l1, l2, ?_, ?_, h2⟩
      · rw [List.cons_append, ← heq]
      · intro e2 he2
        rcases List.mem_cons.mp he2 with he2 | he2
        · rw [he2]
          exact lt_of_lt_of_le h (chave_foldl_max_ge chave e es)
        · exact h1 e2 he2
    · rw [if_neg h]
      obtain ⟨l1, l2, heq, h1, h2⟩ := ih x
      cases l1 with
      | nil =>
        have hx : x = es.foldl (fun m e => if chave m < chave e then e else m) x := by
          have hh := congrArg (fun t => t.head?) heq
          simpa using hh
        have hl2 : es = l2 := by
          have ht := congrArg (fun t => t.tail) heq
          simpa using ht
        refine ⟨[], e :: es, ?_, by simp, ?_⟩
        · rw [List.nil_append, ← hx]
        · intro e2 he2
          rcases List.mem_cons.mp he2 with he2 | he2
          · rw [he2, ← hx]
            exact le_of_not_lt h
          · rw [hl2] at he2
            exact h2 e2 he2
      | cons x2 l1c =>
        have hx2 : x2 = x := by
          have hh := congrArg (fun t => t.head?) heq
          simpa using hh.symm
        have hresto : es = l1c ++ (es.foldl (fun m e => if chave m < chave e then e else m) x) :: l2 := by
          have ht := congrArg (fun t => t.tail) heq
          simpa using ht
        refine ⟨x :: e :: l1c, l2, ?_, ?_, h2⟩
        · simp only [List.cons_append]
          rw [← hresto]
        · intro e2 he2
          have hxlt : chave x < chave (es.foldl (fun m e => if chave m < chave e then e else m) x) := by
            have hm := h1 x2 (by simp)
            rwa [hx2] at hm
          rcases List.mem_cons.mp he2 with he2 | he2
          · rw [he2]
            exact hxlt
          · rcases List.mem_cons.mp he2 with he2 | he2
            · rw [he2]
              exact lt_of_le_of_lt (le_of_not_lt h) hxlt
            · exact h1 e2 (by simp [he2])

/-- Semantics of the Python `max(lista, key=...)` selection: the returned
element splits the list into a strict-prefix of strictly smaller keys and a
suffix of keys not exceeding it — the first encountered maximum. -/
theorem maxPython_primeiro_maximo {α : Type} (chave : α → ℚ) (padrao : α) (l : List α)
    (hne : l ≠ []) :
    ∃ l1 l2, l = l1 ++ maxPython chave padrao l :: l2 ∧
      (∀ e ∈ l1, chave e < chave (maxPython chave padrao l)) ∧
      (∀ e ∈ l2, chave e ≤ chave (maxPython chave padrao l)) := by
  cases l with
  | nil => exact absurd rfl hne
  | cons x xs =>
    simpa only [maxPython] using foldl_primeiro_maximo chave x xs

/-- C5: the sampled-search path builds exactly K=3 folds from the seeded
shuffle (whose test blocks partition the shuffled training indices), runs
one independent bounded study of n_iterations trials per fold, and returns
the hyperparameter assignment of the fold-study whose best score is
maximal, ties broken by the first encountered maximum. -/
theorem tunar_modelo_optuna_tres_folds_primeiro_maximo {ρ σ : Type} [Inhabited ρ]
    (nome_modelo nome_classe : String) (classe_modelo : Params → Modelo ρ σ)
    (X_treino : List ρ) (y_treino : List Int) (n_iteracoes : Nat)
    (espacos : List (String × EspacoOptuna)) (espacoModelo : EspacoOptuna)
    (espaco_busca_skopt : Option EspacoSkopt) (permuta : List Nat)
    (amostrador : Amostrador) (buscaBayes : BuscaBayes) (duracao : ℚ)
    (hesp : espacos.lookup nome_modelo = some espacoModelo) :
    (kfold_split 3 permuta).length = 3 ∧
    ((kfold_split 3 permuta).map (fun fd => fd.2)).flatten = permuta ∧
    ((kfold_split 3 permuta).enum.map (fun par =>
        executaEstudo espacoModelo classe_modelo X_treino y_treino amostrador par.1 par.2
          n_iteracoes)).length = 3 ∧
    (∀ i fold, (tentativasDoEstudo espacoModelo classe_modelo X_treino y_treino amostrador i fold
        n_iteracoes).length = n_iteracoes) ∧
    (tunar_modelo nome_modelo nome_classe classe_modelo X_treino y_treino n_iteracoes
        (some espacos) espaco_busca_skopt "optuna" permuta amostrador buscaBayes duracao).2 =
      Except.ok (maxPython (fun e => e.best_value) ⟨0, []⟩
        ((kfold_split 3 permuta).enum.map (fun par =>
          executaEstudo espacoModelo classe_modelo X_treino y_treino amostrador par.1 par.2
            n_iteracoes))).best_params ∧
    (∃ l1 l2, ((kfold_split 3 permuta).enum.map (fun par =>
          executaEstudo espacoModelo classe_modelo X_treino y_treino amostrador par.1 par.2
            n_iteracoes)) =
        l1 ++ (maxPython (fun e => e.best_value) ⟨0, []⟩
          ((kfold_split 3 permuta).enum.map (fun par =>
            executaEstudo espacoModelo classe_modelo X_treino y_treino amostrador par.1 par.2
              n_iteracoes))) :: l2 ∧
      (∀ e ∈ l1, e.best_value < (maxPython (fun e => e.best_value) ⟨0, []⟩
          ((kfold_split 3 permuta).enum.map (fun par =>
            executaEstudo espacoModelo classe_modelo X_treino y_treino amostrador par.1 par.2
              n_iteracoes))).best_value) ∧
      (∀ e ∈ l2, e.best_value ≤ (maxPython (fun e => e.best_value) ⟨0, []⟩
          ((kfold_split 3 permuta).enum.map (fun par =>
            executaEstudo espacoModelo classe_modelo X_treino y_treino amostrador par.1 par.2
              n_iteracoes))).best_value)) := by
  refine ⟨kfold_split_length 3 permuta, kfold_split_testes permuta, ?_, ?_, ?_, ?_⟩
  · simp [kfold_split_length]
  · intro i fold
    simp [tentativasDoEstudo]
  · simp [tunar_modelo, hesp]
  · have hlen : ((kfold_split 3 permuta).enum.map (fun par =>
        executaEstudo espacoModelo classe_modelo X_treino y_treino amostrador par.1 par.2
          n_iteracoes)).length = 3 := by
      simp [kfold_split_length]
    revert hlen
    generalize ((kfold_split 3 permuta).enum.map (fun par =>
        executaEstudo espacoModelo classe_modelo X_treino y_treino amostrador par.1 par.2
          n_iteracoes)) = estudos
    intro hlen
    apply maxPython_primeiro_maximo
    intro hcon
    rw [hcon] at hlen
    exact absurd hlen (by simp)

/-- Witness for C5 at a concrete three-row training set and an empty
hyperparameter space. -/
theorem tunar_modelo_optuna_tres_folds_primeiro_maximo_aplicado :
    (kfold_split 3 [0, 1, 2]).length = 3 ∧
    ((kfold_split 3 [0, 1, 2]).map (fun fd => fd.2)).flatten = [0, 1, 2] ∧
    ((kfold_split 3 [0, 1, 2]).enum.map (fun par =>
        executaEstudo [] classeConstante [0, 1, 2] [0, 0, 0] (amostradorConstante 0) par.1 par.2
          1)).length = 3 ∧
    (∀ i fold, (tentativasDoEstudo [] classeConstante [0, 1, 2] [0, 0, 0] (amostradorConstante 0)
        i fold 1).length = 1) ∧
    (tunar_modelo "m" "M" classeConstante [0, 1, 2] [0, 0, 0] 1
        (some [("m", [])]) none "optuna" [0, 1, 2] (amostradorConstante 0) buscaBayesVazia 0).2 =
      Except.ok (maxPython (fun e => e.best_value) ⟨0, []⟩
        ((kfold_split 3 [0, 1, 2]).enum.map (fun par =>
          executaEstudo [] classeConstante [0, 1, 2] [0, 0, 0] (amostradorConstante 0) par.1 par.2
            1))).best_params ∧
    (∃ l1 l2, ((kfold_split 3 [0, 1, 2]).enum.map (fun par =>
          executaEstudo [] classeConstante [0, 1, 2] [0, 0, 0] (amostradorConstante 0) par.1 par.2
            1)) =
        l1 ++ (maxPython (fun e => e.best_value) ⟨0, []⟩
          ((kfold_split 3 [0, 1, 2]).enum.map (fun par =>
            executaEstudo [] classeConstante [0, 1, 2] [0, 0, 0] (amostradorConstante 0) par.1 par.2
              1))) :: l2 ∧
      (∀ e ∈ l1, e.best_value < (maxPython (fun e => e.best_value) ⟨0, []⟩
          ((kfold_split 3 [0, 1, 2]).enum.map (fun par =>
            executaEstudo [] classeConstante [0, 1, 2] [0, 0, 0] (amostradorConstante 0) par.1 par.2
              1))).best_value) ∧
      (∀ e ∈ l2, e.best_value ≤ (maxPython (fun e => e.best_value) ⟨0, []⟩
          ((kfold_split 3 [0, 1, 2]).enum.map (fun par =>
            executaEstudo [] classeConstante [0, 1, 2] [0, 0, 0] (amostradorConstante 0) par.1 par.2
              1))).best_value)) :=
  tunar_modelo_optuna_tres_folds_primeiro_maximo "m" "M" classeConstante [0, 1, 2] [0, 0, 0] 1
    [("m", [])] [] none [0, 1, 2] (amostradorConstante 0) buscaBayesVazia 0 rfl

theorem passoFold_com_proba {ρ σ : Type} [Inhabited ρ] (modelo : Modelo ρ σ) (X : List ρ)
    (y : List Int) (f : σ → ρ → ℚ) (hp : modelo.predict_proba = some f)
    (listas : ListasVC) (fold : Fold) :
    passoFold modelo X y listas fold =
      { lista_acuracia := listas.lista_acuracia ++ [acuraciaDoFold modelo X y fold],
        lista_auc_roc := listas.lista_auc_roc ++ [aucDoFold modelo X y f fold],
        lista_precisao := listas.lista_precisao ++ [precisaoDoFold modelo X y fold],
        lista_recall := listas.lista_recall ++ [revocacaoDoFold modelo X y fold],
        lista_f1 := listas.lista_f1 ++ [f1DoFold modelo X y fold],
        lista_matrizes := listas.lista_matrizes ++ [matrizDoFold modelo X y fold],
        lista_fpr := listas.lista_fpr ++ [(curvaDoFold modelo X y f fold).1],
        lista_tpr := listas.lista_tpr ++ [(curvaDoFold modelo X y f fold).2] } := by
  simp [passoFold, hp, acuraciaDoFold, aucDoFold, precisaoDoFold, revocacaoDoFold, f1DoFold,
    matrizDoFold, curvaDoFold, probDoFold, preditoDoFold, ajusteDoFold]

theorem passoFold_sem_proba {ρ σ : Type} [Inhabited ρ] (modelo : Modelo ρ σ) (X : List ρ)
    (y : List Int) (hp : modelo.predict_proba = none)
    (listas : ListasVC) (fold : Fold) :
    passoFold modelo X y listas fold =
      { lista_acuracia := listas.lista_acuracia ++ [acuraciaDoFold modelo X y fold],
        lista_auc_roc := listas.lista_auc_roc,
        lista_precisao := listas.lista_precisao ++ [precisaoDoFold modelo X y fold],
        lista_recall := listas.lista_recall ++ [revocacaoDoFold modelo X y fold],
        lista_f1 := listas.lista_f1 ++ [f1DoFold modelo X y fold],
        lista_matrizes := listas.lista_matrizes ++ [matrizDoFold modelo X y fold],
        lista_fpr := listas.lista_fpr,
        lista_tpr := listas.lista_tpr } := by
  simp [passoFold, hp, acuraciaDoFold, precisaoDoFold, revocacaoDoFold, f1DoFold,
    matrizDoFold, preditoDoFold, ajusteDoFold]

theorem foldl_passoFold_com_proba {ρ σ : Type} [Inhabited ρ] (modelo : Modelo ρ σ) (X : List ρ)
    (y : List Int) (f : σ → ρ → ℚ) (hp : modelo.predict_proba = some f)
    (folds : List Fold) (init : ListasVC) :
    folds.foldl (passoFold modelo X y) init =
      { lista_acuracia := init.lista_acuracia ++ folds.map (acuraciaDoFold modelo X y),
        lista_auc_roc := init.lista_auc_roc ++ folds.map (aucDoFold modelo X y f),
        lista_precisao := init.lista_precisao ++ folds.map (precisaoDoFold modelo X y),
        lista_recall := init.lista_recall ++ folds.map (revocacaoDoFold modelo X y),
        lista_f1 := init.lista_f1 ++ folds.map (f1DoFold modelo X y),
        lista_matrizes := init.lista_matrizes ++ folds.map (matrizDoFold modelo X y),
        lista_fpr := init.lista_fpr ++ folds.map (fun fd => (curvaDoFold modelo X y f fd).1),
        lista_tpr := init.lista_tpr ++ folds.map (fun fd => (curvaDoFold modelo X y f fd).2) } := by
  induction folds generalizing init with
  | nil =>
    cases init
    simp
  | cons fd fds ih =>
    rw [List.foldl_cons, passoFold_com_proba modelo X y f hp init fd, ih]
    simp

theorem foldl_passoFold_sem_proba {ρ σ : Type} [Inhabited ρ] (modelo : Modelo ρ σ) (X : List ρ)
    (y : List Int) (hp : modelo.predict_proba = none)
    (folds : List Fold) (init : ListasVC) :
    folds.foldl (passoFold modelo X y) init =
      { lista_acuracia := init.lista_acuracia ++ folds.map (acuraciaDoFold modelo X y),
        lista_auc_roc := init.lista_auc_roc,
        lista_precisao := init.lista_precisao ++ folds.map (precisaoDoFold modelo X y),
        lista_recall := init.lista_recall ++ folds.map (revocacaoDoFold modelo X y),
        lista_f1 := init.lista_f1 ++ folds.map (f1DoFold modelo X y),
        lista_matrizes := init.lista_matrizes ++ folds.map (matrizDoFold modelo X y),
        lista_fpr := init.lista_fpr,
        lista_tpr := init.lista_tpr } := by
  induction folds generalizing init with
  | nil =>
    cases init
    simp
  | cons fd fds ih =>
    rw [List.foldl_cons, passoFold_sem_proba modelo X y hp init fd, ih]
    simp

/-- C1: the AUC-ROC entry of the cross-validation report is `(None, None)`
exactly when zero folds produce probability estimates (model without
`predict_proba`, or no folds at all); when the model exposes
`predict_proba` and at least one fold runs, the entry is the
mean/standard-deviation pair over exactly the per-fold AUC list, which has
one entry per fold, and the absence is never coerced to a numeric
sentinel. -/
theorem validador_cruzado_auc_roc_none_ou_media {ρ σ : Type} [Inhabited ρ]
    (modelo : Modelo ρ σ) (X : List ρ) (y : List Int) (folds : List Fold) (f : σ → ρ → ℚ) :
    ((modelo.predict_proba = none ∨ folds = []) →
      (validador_cruzado modelo X y folds).auc_roc = none) ∧
    (modelo.predict_proba = some f → folds ≠ [] →
      (validador_cruzado modelo X y folds).auc_roc =
        some (np_mean (folds.map (aucDoFold modelo X y f)),
              np_std (folds.map (aucDoFold modelo X y f))) ∧
      (folds.map (aucDoFold modelo X y f)).length = folds.length) := by
  constructor
  · intro h
    rcases h with hp | hf
    · unfold validador_cruzado
      rw [foldl_passoFold_sem_proba modelo X y hp folds listasVazias]
      simp [listasVazias]
    · subst hf
      simp [validador_cruzado, listasVazias]
  · intro hp hne
    unfold validador_cruzado
    rw [foldl_passoFold_com_proba modelo X y f hp folds listasVazias]
    have hmapne : folds.map (aucDoFold modelo X y f) ≠ [] := by
      intro hcon
      exact hne (List.map_eq_nil_iff.mp hcon)
    constructor
    · simp [listasVazias, List.isEmpty_iff, hmapne]
    · simp

/-- Witness for C1 at a concrete probability-exposing model and two folds. -/
theorem validador_cruzado_auc_roc_none_ou_media_aplicado :
    ((modeloComProba.predict_proba = none ∨ ([([0], [1]), ([1], [0])] : List Fold) = []) →
      (validador_cruzado modeloComProba [0, 1] [0, 1] [([0], [1]), ([1], [0])]).auc_roc = none) ∧
    (modeloComProba.predict_proba = some (fun (_ : Unit) (x : Int) => (x : ℚ)) →
      ([([0], [1]), ([1], [0])] : List Fold) ≠ [] →
      (validador_cruzado modeloComProba [0, 1] [0, 1] [([0], [1]), ([1], [0])]).auc_roc =
        some (np_mean (([([0], [1]), ([1], [0])] : List Fold).map
                (aucDoFold modeloComProba [0, 1] [0, 1] (fun (_ : Unit) (x : Int) => (x : ℚ)))),
              np_std (([([0], [1]), ([1], [0])] : List Fold).map
                (aucDoFold modeloComProba [0, 1] [0, 1] (fun (_ : Unit) (x : Int) => (x : ℚ))))) ∧
      (([([0], [1]), ([1], [0])] : List Fold).map
        (aucDoFold modeloComProba [0, 1] [0, 1] (fun (_ : Unit) (x : Int) => (x : ℚ)))).length =
        ([([0], [1]), ([1], [0])] : List Fold).length) :=
  validador_cruzado_auc_roc_none_ou_media modeloComProba [0, 1] [0, 1]
    [([0], [1]), ([1], [0])] (fun (_ : Unit) (x : Int) => (x : ℚ))

theorem getD_zipWith_add (a b : List ℚ) (i : Nat) (hia : i < a.length) (hib : i < b.length) :
    (a.zipWith (fun x y => x + y) b).getD i 0 = a.getD i 0 + b.getD i 0 := by
  induction a generalizing b i with
  | nil => simp at hia
  | cons x xs ih =>
    cases b with
    | nil => simp at hib
    | cons y ys =>
      cases i with
      | zero => simp [List.zipWith]
      | succ i =>
        have h1 : i < xs.length := by simpa using hia
        have h2 : i < ys.length := by simpa using hib
        simpa [List.zipWith] using ih ys i h1 h2

theorem foldl_vetorSoma_length (n : Nat) (vs : List (List ℚ)) (acc : List ℚ)
    (hacc : acc.length = n) (hvs : ∀ v ∈ vs, v.length = n) :
    (vs.foldl vetorSoma acc).length = n := by
  induction vs generalizing acc with
  | nil => exact hacc
  | cons v vs ih =>
    rw [List.foldl_cons]
    refine ih (vetorSoma acc v) ?_ (fun w hw => hvs w (by simp [hw]))
    simp [vetorSoma, hacc, hvs v (by simp)]

theorem foldl_vetorSoma_getD (n : Nat) (vs : List (List ℚ)) (acc : List ℚ)
    (hacc : acc.length = n) (hvs : ∀ v ∈ vs, v.length = n) (i : Nat) (hi : i < n) :
    (vs.foldl vetorSoma acc).getD i 0 = acc.getD i 0 + ((vs.map (fun v => v.getD i 0)).sum) := by
  induction vs generalizing acc with
  | nil => simp
  | cons v vs ih =>
    have hlenv : v.length = n := hvs v (by simp)
    have hlen2 : (vetorSoma acc v).length = n := by simp [vetorSoma, hacc, hlenv]
    rw [List.foldl_cons, ih (vetorSoma acc v) hlen2 (fun w hw => hvs w (by simp [hw]))]
    have hget : (vetorSoma acc v).getD i 0 = acc.getD i 0 + v.getD i 0 :=
      getD_zipWith_add acc v i (by omega) (by omega)
    rw [List.map_cons, List.sum_cons, hget]
    ring

theorem getD_map_range {β : Type} (n : Nat) (g : Nat → β) (i : Nat) (hi : i < n) (d : β) :
    (((List.range n).map g).getD i d) = g i := by
  rw [List.getD_eq_getElem ((List.range n).map g) d (by simpa using hi)]
  simp

theorem getD_map_of_lt {α β : Type} (g : α → β) (l : List α) (i : Nat) (hi : i < l.length)
    (d : α) (d2 : β) :
    (l.map g).getD i d2 = g (l.getD i d) := by
  rw [List.getD_eq_getElem (l.map g) d2 (by simpa using hi), List.getD_eq_getElem l d hi]
  simp

theorem getD_replicate_zero (n i : Nat) : (List.replicate n (0 : ℚ)).getD i 0 = 0 := by
  by_cases h : i < n
  · rw [List.getD_eq_getElem _ _ (by simpa using h)]
    simp
  · rw [List.getD_eq_default _ _ (by simpa using h)]

theorem np_interp_length (xs xp fp : List ℚ) : (np_interp xs xp fp).length = xs.length := by
  simp [np_interp]

theorem np_linspace01_length (n : Nat) : (np_linspace01 n).length = n := by
  unfold np_linspace01
  rw [List.length_map]
  exact List.length_range n

/-- C8: the ROC aggregation of the cross-validator uses the fixed grid of 100
equally spaced false-positive rates from 0 to 1 inclusive (point i is
i/99); each fold ROC curve is linearly interpolated onto the grid, and the
report carries, at every grid point, the across-fold arithmetic mean of the
interpolated true-positive rates together with, separately, their
across-fold population standard deviation. -/
theorem validador_cruzado_curva_roc_grade_100 {ρ σ : Type} [Inhabited ρ]
    (modelo : Modelo ρ σ) (X : List ρ) (y : List Int) (folds : List Fold) (f : σ → ρ → ℚ)
    (hp : modelo.predict_proba = some f) (hne : folds ≠ []) :
    (validador_cruzado modelo X y folds).curva_roc.1 = np_linspace01 100 ∧
    (np_linspace01 100).length = 100 ∧
    (∀ i, i < 100 → (np_linspace01 100).getD i 0 = (i : ℚ) / 99) ∧
    (validador_cruzado modelo X y folds).curva_roc.2.1.length = 100 ∧
    (∀ i, i < 100 → (validador_cruzado modelo X y folds).curva_roc.2.1.getD i 0 =
      np_mean ((folds.map (interpDoFold modelo X y f)).map (fun v => v.getD i 0))) ∧
    (validador_cruzado modelo X y folds).curva_roc.2.2 =
      (List.range 100).map (fun i =>
        np_std ((folds.map (interpDoFold modelo X y f)).map (fun v => v.getD i 0))) := by
  have hzip : ((folds.map (fun fd => (curvaDoFold modelo X y f fd).1)).zip
      (folds.map (fun fd => (curvaDoFold modelo X y f fd).2))) =
      folds.map (fun fd => ((curvaDoFold modelo X y f fd).1, (curvaDoFold modelo X y f fd).2)) :=
    List.zip_map' _ _ folds
  have hcurva : (validador_cruzado modelo X y folds).curva_roc =
      (np_linspace01 100,
       ((folds.map (interpDoFold modelo X y f)).foldl vetorSoma
          (List.replicate 100 (0 : ℚ))).map (fun v => v / ((folds.length : ℚ))),
       stdAxis0 100 (folds.map (interpDoFold modelo X y f))) := by
    unfold validador_cruzado
    rw [foldl_passoFold_com_proba modelo X y f hp folds listasVazias]
    simp only [listasVazias, List.nil_append, hzip, List.foldl_map, List.map_map,
      List.length_map]
    rfl
  have hlens : ∀ v ∈ folds.map (interpDoFold modelo X y f), v.length = 100 := by
    intro v hv
    obtain ⟨fd, _, rfl⟩ := List.mem_map.mp hv
    unfold interpDoFold
    rw [np_interp_length]
    exact np_linspace01_length 100
  have hsomalen : ((folds.map (interpDoFold modelo X y f)).foldl vetorSoma
      (List.replicate 100 (0 : ℚ))).length = 100 :=
    foldl_vetorSoma_length 100 _ _ (List.length_replicate 100 0) hlens
  refine ⟨?_, np_linspace01_length 100, ?_, ?_, ?_, ?_⟩
  · rw [hcurva]
  · intro i hi
    unfold np_linspace01
    rw [getD_map_range 100 _ i hi]
    norm_num
  · rw [hcurva]
    simp only [List.length_map]
    exact hsomalen
  · intro i hi
    rw [hcurva]
    simp only []
    rw [getD_map_of_lt _ _ i (by rw [hsomalen]; exact hi) 0 0]
    rw [foldl_vetorSoma_getD 100 _ _ (List.length_replicate 100 0) hlens i hi]
    rw [getD_replicate_zero, zero_add]
    unfold np_mean
    rw [List.map_map, List.length_map]
  · rw [hcurva]
    rfl

/-- Witness for C8 at a concrete probability-exposing model and two folds. -/
theorem validador_cruzado_curva_roc_grade_100_aplicado :
    (validador_cruzado modeloComProba [0, 1, 2] [0, 1, 1] [([0, 1], [2]), ([2], [0, 1])]).curva_roc.1 =
      np_linspace01 100 ∧
    (np_linspace01 100).length = 100 ∧
    (∀ i, i < 100 → (np_linspace01 100).getD i 0 = (i : ℚ) / 99) ∧
    (validador_cruzado modeloComProba [0, 1, 2] [0, 1, 1]
      [([0, 1], [2]), ([2], [0, 1])]).curva_roc.2.1.length = 100 ∧
    (∀ i, i < 100 → (validador_cruzado modeloComProba [0, 1, 2] [0, 1, 1]
        [([0, 1], [2]), ([2], [0, 1])]).curva_roc.2.1.getD i 0 =
      np_mean ((([([0, 1], [2]), ([2], [0, 1])] : List Fold).map
        (interpDoFold modeloComProba [0, 1, 2] [0, 1, 1] (fun (_ : Unit) (x : Int) => (x : ℚ)))).map
          (fun v => v.getD i 0))) ∧
    (validador_cruzado modeloComProba [0, 1, 2] [0, 1, 1]
        [([0, 1], [2]), ([2], [0, 1])]).curva_roc.2.2 =
      (List.range 100).map (fun i =>
        np_std ((([([0, 1], [2]), ([2], [0, 1])] : List Fold).map
          (interpDoFold modeloComProba [0, 1, 2] [0, 1, 1]
            (fun (_ : Unit) (x : Int) => (x : ℚ)))).map (fun v => v.getD i 0))) :=
  validador_cruzado_curva_roc_grade_100 modeloComProba [0, 1, 2] [0, 1, 1]
    [([0, 1], [2]), ([2], [0, 1])] (fun (_ : Unit) (x : Int) => (x : ℚ)) rfl (by decide)
